import Mathlib

/-!
Verification of the `nd-python` client library (`src/lib/nd_python`).

The development shallowly embeds the parts of the library that the verified
properties are about:

* switch-inventory indexing and lookups (`switches/inventory_get.py`),
* the fabric-detail and user-switch-credential business objects
  (`fabric/fabric_detail_get.py`, `credentials/user_switch_save.py`),
* the generic query-filter builder (`endpoints/base/query_filter_generic.py`).

Python dictionaries are modelled as association lists with Python's
assignment/lookup semantics (overwrite in place, first-match lookup,
insertion at the end for new keys); JSON scalar values are modelled by
`JVal`; stateful methods become pure functions from an explicit state
record to a pair of the post-state and an `Except` outcome, which models
the method either returning normally or raising an exception carrying a
message string.
-/

set_option autoImplicit false

namespace NdPython

/-- Scalar JSON values as they appear in switch records.  Python's `None`
is `JVal.null`; a key that is missing from a record and a key stored with
value `None` are both observed as `None` by the `dict.get` calls in the
source, which is mirrored by `pyGet` below. -/
inductive JVal where
  | null : JVal
  | str : String → JVal
  | bool : Bool → JVal
  | int : Int → JVal
deriving DecidableEq, Repr

/-- Python `str()` of a scalar value, as used by f-string interpolation. -/
def JVal.pyStr : JVal → String
  | .null => "None"
  | .str s => s
  | .bool b => if b then "True" else "False"
  | .int n => toString n

/-- Python truthiness of a scalar value (`if not value` tests). -/
def JVal.falsy : JVal → Bool
  | .null => true
  | .str s => s = ""
  | .bool b => !b
  | .int n => n = 0

section AssocList

variable {κ : Type} {α : Type} [DecidableEq κ]

/-- Python `dict` lookup on an association list: first match wins (keys
are unique in every dictionary the code builds, because insertion
overwrites in place). -/
def alLookup : List (κ × α) → κ → Option α
  | [], _ => none
  | (k', v) :: rest, k => if k = k' then some v else alLookup rest k

/-- Python `dict` assignment `d[k] = v`: overwrite the existing entry in
place, otherwise append a new entry at the end. -/
def alInsert : List (κ × α) → κ → α → List (κ × α)
  | [], k, v => [(k, v)]
  | (k', v') :: rest, k, v =>
      if k = k' then (k, v) :: rest else (k', v') :: alInsert rest k v

theorem alLookup_alInsert (d : List (κ × α)) (k' k : κ) (v : α) :
    alLookup (alInsert d k' v) k = if k = k' then some v else alLookup d k := by
  induction d with
  | nil =>
      by_cases h : k = k' <;> simp [alInsert, alLookup, h]
  | cons p rest ih =>
      obtain ⟨k₀, v₀⟩ := p
      by_cases h1 : k' = k₀
      · subst h1
        by_cases h2 : k = k' <;> simp [alInsert, alLookup, h2]
      · by_cases h2 : k = k₀
        · subst h2
          have h3 : ¬k = k' := fun h => h1 h.symm
          simp [alInsert, alLookup, h1, h3]
        · simp [alInsert, alLookup, h1, h2, ih]

end AssocList

/-- A switch record from the controller response: a Python dictionary
with string keys and scalar values. -/
abbrev Record := List (String × JVal)

/-- Python `switch.get(key, default)`. -/
def pyGetD (r : Record) (k : String) (d : JVal) : JVal :=
  (alLookup r k).getD d

/-- Python `switch.get(key)`: `None` both when the key is missing and
when it is stored with value `None`. -/
def pyGet (r : Record) (k : String) : JVal :=
  pyGetD r k .null

/-- An inventory dictionary: switch records keyed by the (scalar) value
of one of their fields. -/
abbrev Inv := List (JVal × Record)

/-- The last record of `data` (in list order) whose `field` value is `k`;
used to state the last-wins property of the index builders. -/
def lastWith (field : String) (k : JVal) : List Record → Option Record
  | [] => none
  | r :: rest => (lastWith field k rest).orElse (fun _ => if pyGet r field = k then some r else none)

/-- One pass of `SwitchesInventoryGet._build_inventory_by_switch_*`
(`switches/inventory_get.py` lines 107-132): for each record, read the
key field with `.get`, skip the record when the key is `None`, otherwise
assign the record into the dictionary under that key. -/
def buildIndexBy (field : String) (data : List Record) : Inv :=
  data.foldl
    (fun acc switch =>
      let key := pyGet switch field
      if key = .null then acc else alInsert acc key switch)
    []

theorem alLookup_buildIndexBy_go (field : String) (k : JVal)
    (data : List Record) (acc : Inv) :
    alLookup
      (data.foldl
        (fun acc switch =>
          let key := pyGet switch field
          if key = .null then acc else alInsert acc key switch)
        acc) k =
      if k = .null then alLookup acc k
      else (lastWith field k data).orElse (fun _ => alLookup acc k) := by
  induction data generalizing acc with
  | nil =>
      by_cases h : k = JVal.null <;> simp [lastWith, Option.orElse, h]
  | cons r rest ih =>
      simp only [List.foldl_cons]
      rw [ih]
      by_cases hk : k = JVal.null
      · subst hk
        by_cases hr : pyGet r field = JVal.null
        · simp [hr]
        · have hne : ¬JVal.null = pyGet r field := fun h => hr h.symm
          simp [hr, alLookup_alInsert, hne]
      · by_cases hr : pyGet r field = JVal.null
        · have hne : ¬pyGet r field = k := fun h => hk (h ▸ hr)
          have hne2 : ¬JVal.null = k := fun h => hk h.symm
          cases hlw : lastWith field k rest <;>
            simp [hk, hr, lastWith, hlw, hne, hne2, Option.orElse]
        · by_cases heq : pyGet r field = k
          · cases hlw : lastWith field k rest <;>
              simp [hk, hr, lastWith, hlw, heq, alLookup_alInsert, Option.orElse]
          · have hne : ¬k = pyGet r field := fun h => heq h.symm
            cases hlw : lastWith field k rest <;>
              simp [hk, hr, lastWith, hlw, heq, hne, alLookup_alInsert, Option.orElse]

/-- Lookup into an index built by one pass of
`_build_inventory_by_switch_*`: `None` keys are never present, every
other key maps to the last record in list order carrying it. -/
theorem alLookup_buildIndexBy (field : String) (k : JVal) (data : List Record) :
    alLookup (buildIndexBy field data) k =
      if k = .null then none else lastWith field k data := by
  have h := alLookup_buildIndexBy_go field k data []
  simp only [buildIndexBy, h, alLookup]
  by_cases hk : k = JVal.null
  · simp [hk]
  · simp only [if_neg hk]
    cases lastWith field k data <;> simp [Option.orElse]

/-- The `DATA` object of a controller response.  The switch-inventory
endpoint returns `DATA.switches` (a list of switch records) and
`DATA.meta`; other endpoints return a flat object, kept in `rest`.
A field is `none` when the corresponding key is missing, matching the
defaults the source supplies to `.get`. -/
structure DataObj where
  switches : Option (List Record) := none
  meta : Option Record := none
  rest : Record := []
deriving DecidableEq, Repr

/-- The empty dictionary default in `response.get("DATA", {})`. -/
def DataObj.empty : DataObj := {}

/-- A controller response as stored in `rest_send.response_current`,
restricted to the keys the source reads. -/
structure ResponseCurrent where
  DATA : Option DataObj := none
  REQUEST_METHOD : Option String := none
  REQUEST_PATH : Option String := none
  MESSAGE : Option String := none
  RETURN_CODE : Option Int := none
deriving DecidableEq, Repr

/-- A request payload value: the payloads built by the credentials
business objects hold scalars, lists of scalars, and lists of records. -/
inductive PVal where
  | scalar : JVal → PVal
  | list : List JVal → PVal
  | recs : List Record → PVal
deriving DecidableEq, Repr

abbrev Payload := List (String × PVal)

/-- An exception raised by the injected sender's `commit`: the business
objects catch exactly `TypeError` and `ValueError` around the send. -/
inductive SenderErr where
  | typeError : String → SenderErr
  | valueError : String → SenderErr
deriving DecidableEq, Repr

/-- `str(error)`, as interpolated into the annotated messages. -/
def SenderErr.detail : SenderErr → String
  | .typeError m => m
  | .valueError m => m

/-- The behaviour of the injected transport for one round trip: given
the request verb, path and payload, either a response or a raised
`TypeError`/`ValueError`. -/
def Sender : Type := String → String → Option Payload → Except SenderErr ResponseCurrent

/-- Modelled from the spec: `RestSend` (`common/rest_send_v2.py`) is an
externally supplied transport collaborator that is not under `src/`; the
spec describes it as an injected object through which a business object
"sends a single REST call".  Its observable state is the request fields
its callers set, the `response_current` dictionary its callers read, and
(for round-trip accounting) the number of times `commit` was invoked. -/
structure RestSendState where
  path : String := ""
  verb : String := ""
  payload : Option Payload := none
  response_current : ResponseCurrent := {}
  trips : Nat := 0
deriving DecidableEq, Repr

/-- Modelled from the spec: one `RestSend.commit()` call performs one
synchronous request/response round trip through the injected sender,
storing the response in `response_current`, or raises the sender's
`TypeError`/`ValueError`. -/
def restSendCommit (send : Sender) (rs : RestSendState) :
    RestSendState × Except SenderErr Unit :=
  let rs := { rs with trips := rs.trips + 1 }
  match send rs.verb rs.path rs.payload with
  | .ok resp => ({ rs with response_current := resp }, .ok ())
  | .error e => (rs, .error e)

/-- Modelled from the spec: the endpoint path constants `SWITCHES`,
`FABRICS` and `CREDENTIALS` come from `endpoints/base/endpoint.py`,
which is not under `src/`.  Their exact values are immaterial to the
verified properties; `/api/v1/manage` prefixes match the repository's
test expectations in `tests/endpoints/test_ep_fabric_detail_get.py`. -/
def SWITCHES : String := "/api/v1/manage/switches"

def CREDENTIALS : String := "/api/v1/manage/credentials"

/-- `EpSwitchesInventoryGet.commit` (`endpoints/switches/inventory_get.py`):
raises unless `fabric_name` is set, otherwise produces the request path
with the `fabricName` query parameter. -/
def epSwitchesInventoryGetCommit (fabric_name : String) : Except String String :=
  if fabric_name = "" then
    .error "fabric_name must be set before committing the endpoint"
  else
    .ok (SWITCHES ++ "?fabricName=" ++ fabric_name)

/-- Modelled from the spec: `EpFabricDetailGet` is imported from
`endpoints/manage.py` but its definition is not under `src/`; its tests
(`tests/endpoints/test_ep_fabric_detail_get.py`) fix `verb = "GET"` and
base `path = "/api/v1/manage/fabrics"`, which is all
`FabricDetailGet.commit` reads. -/
def EpFabricDetailGet_path : String := "/api/v1/manage/fabrics"

/-- `EpCredentialsUserSwitchSave` (`endpoints/manage.py`): verb POST,
path `{CREDENTIALS}/switches`. -/
def EpCredentialsUserSwitchSave_path : String := CREDENTIALS ++ "/switches"

/-- The state of a `SwitchesInventoryGet` instance
(`switches/inventory_get.py` `__init__`).  `rest_send` is `none` when
the attribute has been set to `None`. -/
structure SIGState where
  fabric_name : String := ""
  committed : Bool := false
  inventory_by_switch_name : Inv := []
  inventory_by_switch_ipv4_address : Inv := []
  inventory_by_switch_serial_number : Inv := []
  inventory_data : List Record := []
  inventory_meta : Record := []
  request_path : String := ""
  request_method : String := ""
  response_message : String := ""
  return_code : Int := 0
  rest_send : Option RestSendState := none
deriving DecidableEq, Repr

namespace SIG

/-- `SwitchesInventoryGet._final_verification`: raise unless `rest_send`
and `fabric_name` are set. -/
def final_verification (s : SIGState) : Except String Unit :=
  if s.rest_send.isNone then
    .error ("SwitchesInventoryGet._final_verification: " ++
      "SwitchesInventoryGet.rest_send must be set before calling " ++
      "SwitchesInventoryGet.commit")
  else if s.fabric_name = "" then
    .error ("SwitchesInventoryGet._final_verification: " ++
      "SwitchesInventoryGet.fabric_name must be set before calling " ++
      "SwitchesInventoryGet.commit")
  else
    .ok ()

/-- `SwitchesInventoryGet._build_inventory_by_switch_ipv4_address`. -/
def build_inventory_by_switch_ipv4_address (s : SIGState) : SIGState :=
  { s with inventory_by_switch_ipv4_address :=
      buildIndexBy "fabricManagementIp" s.inventory_data }

/-- `SwitchesInventoryGet._build_inventory_by_switch_name`. -/
def build_inventory_by_switch_name (s : SIGState) : SIGState :=
  { s with inventory_by_switch_name := buildIndexBy "hostname" s.inventory_data }

/-- `SwitchesInventoryGet._build_inventory_by_switch_serial_number`. -/
def build_inventory_by_switch_serial_number (s : SIGState) : SIGState :=
  { s with inventory_by_switch_serial_number :=
      buildIndexBy "serialNumber" s.inventory_data }

/-- `SwitchesInventoryGet.commit` (`switches/inventory_get.py` lines
75-105): verify parameters, build the endpoint path, send one GET
request through `rest_send`, translate a raised `TypeError`/`ValueError`
into an annotated `ValueError`, then unpack the response and build the
three inventory dictionaries. -/
def commit (send : Sender) (s : SIGState) : SIGState × Except String Unit :=
  match final_verification s with
  | .error e => (s, .error e)
  | .ok () =>
    match epSwitchesInventoryGetCommit s.fabric_name with
    | .error e => (s, .error e)
    | .ok path =>
      match s.rest_send with
      | none => (s, .error "unreachable: final_verification checked rest_send")
      | some rs =>
        let rs := { rs with path := path, verb := "GET" }
        match restSendCommit send rs with
        | (rs, .error e) =>
            ({ s with rest_send := some rs },
             .error ("SwitchesInventoryGet.commit: Error sending " ++ rs.verb ++
               " request to the controller. Error details: " ++ e.detail))
        | (rs, .ok ()) =>
            let dataObj := rs.response_current.DATA.getD DataObj.empty
            let s := { s with
              rest_send := some rs
              inventory_data := dataObj.switches.getD []
              inventory_meta := dataObj.meta.getD []
              request_method := rs.response_current.REQUEST_METHOD.getD ""
              request_path := rs.response_current.REQUEST_PATH.getD ""
              response_message := rs.response_current.MESSAGE.getD ""
              return_code := rs.response_current.RETURN_CODE.getD 0 }
            let s := build_inventory_by_switch_ipv4_address s
            let s := build_inventory_by_switch_name s
            let s := build_inventory_by_switch_serial_number s
            ({ s with committed := true }, .ok ())

/-- The `if not self._committed: self.commit()` prelude shared by every
lookup method and property of `SwitchesInventoryGet`. -/
def autoCommit (send : Sender) (s : SIGState) : SIGState × Except String Unit :=
  if s.committed then (s, .ok ()) else commit send s

/-- `SwitchesInventoryGet.switch_name_to_serial_number`. -/
def switch_name_to_serial_number (send : Sender) (s : SIGState)
    (switch_name : String) : SIGState × Except String JVal :=
  match autoCommit send s with
  | (s, .error e) => (s, .error e)
  | (s, .ok ()) =>
    match alLookup s.inventory_by_switch_name (.str switch_name) with
    | none =>
        (s, .error ("Switch name " ++ switch_name ++ " not found in fabric " ++
          s.fabric_name ++ "."))
    | some switch =>
        let serial_number := pyGet switch "serialNumber"
        if serial_number = .null then
          (s, .error ("Switch name " ++ switch_name ++
            " has no serial number in fabric " ++ s.fabric_name ++ "."))
        else
          (s, .ok serial_number)

/-- `SwitchesInventoryGet.switch_name_to_ipv4_address`. -/
def switch_name_to_ipv4_address (send : Sender) (s : SIGState)
    (switch_name : String) : SIGState × Except String JVal :=
  match autoCommit send s with
  | (s, .error e) => (s, .error e)
  | (s, .ok ()) =>
    match alLookup s.inventory_by_switch_name (.str switch_name) with
    | none =>
        (s, .error ("Switch name " ++ switch_name ++ " not found in fabric " ++
          s.fabric_name ++ "."))
    | some switch =>
        let ipv4_address := pyGet switch "fabricManagementIp"
        if ipv4_address = .null then
          (s, .error ("Switch name " ++ switch_name ++
            " has no IPv4 address in fabric " ++ s.fabric_name ++ "."))
        else
          (s, .ok ipv4_address)

/-- `SwitchesInventoryGet.ipv4_address_to_switch_name`. -/
def ipv4_address_to_switch_name (send : Sender) (s : SIGState)
    (ipv4_address : String) : SIGState × Except String JVal :=
  match autoCommit send s with
  | (s, .error e) => (s, .error e)
  | (s, .ok ()) =>
    match alLookup s.inventory_by_switch_ipv4_address (.str ipv4_address) with
    | none =>
        (s, .error ("IPv4 address " ++ ipv4_address ++ " not found in fabric " ++
          s.fabric_name ++ "."))
    | some switch =>
        let switch_name := pyGet switch "hostname"
        if switch_name = .null then
          (s, .error ("IPv4 address " ++ ipv4_address ++
            " has no associated switch name in fabric " ++ s.fabric_name ++ "."))
        else
          (s, .ok switch_name)

/-- `SwitchesInventoryGet.ipv4_address_to_serial_number`. -/
def ipv4_address_to_serial_number (send : Sender) (s : SIGState)
    (ipv4_address : String) : SIGState × Except String JVal :=
  match autoCommit send s with
  | (s, .error e) => (s, .error e)
  | (s, .ok ()) =>
    match alLookup s.inventory_by_switch_ipv4_address (.str ipv4_address) with
    | none =>
        (s, .error ("IPv4 address " ++ ipv4_address ++ " not found in fabric " ++
          s.fabric_name ++ "."))
    | some switch =>
        let serial_number := pyGet switch "serialNumber"
        if serial_number = .null then
          (s, .error ("IPv4 address " ++ ipv4_address ++
            " has no associated serial number in fabric " ++ s.fabric_name ++ "."))
        else
          (s, .ok serial_number)

/-- `SwitchesInventoryGet.serial_number_to_ipv4_address`. -/
def serial_number_to_ipv4_address (send : Sender) (s : SIGState)
    (serial_number : String) : SIGState × Except String JVal :=
  match autoCommit send s with
  | (s, .error e) => (s, .error e)
  | (s, .ok ()) =>
    match alLookup s.inventory_by_switch_serial_number (.str serial_number) with
    | none =>
        (s, .error ("Serial number " ++ serial_number ++ " not found in fabric " ++
          s.fabric_name ++ "."))
    | some switch =>
        let ipv4_address := pyGet switch "fabricManagementIp"
        if ipv4_address = .null then
          (s, .error ("Serial number " ++ serial_number ++
            " has no associated IPv4 address in fabric " ++ s.fabric_name ++ "."))
        else
          (s, .ok ipv4_address)

/-- `SwitchesInventoryGet.serial_number_to_switch_name`. -/
def serial_number_to_switch_name (send : Sender) (s : SIGState)
    (serial_number : String) : SIGState × Except String JVal :=
  match autoCommit send s with
  | (s, .error e) => (s, .error e)
  | (s, .ok ()) =>
    match alLookup s.inventory_by_switch_serial_number (.str serial_number) with
    | none =>
        (s, .error ("Serial number " ++ serial_number ++ " not found in fabric " ++
          s.fabric_name ++ "."))
    | some switch =>
        let switch_name := pyGet switch "hostname"
        if switch_name = .null then
          (s, .error ("Serial number " ++ serial_number ++
            " has no associated switch name in fabric " ++ s.fabric_name ++ "."))
        else
          (s, .ok switch_name)

/-- `SwitchesInventoryGet.is_vpc_peer` (`switches/inventory_get.py`
lines 134-174). -/
def is_vpc_peer (send : Sender) (s : SIGState) (switch_name peer_switch_name : String) :
    SIGState × Except String Bool :=
  match autoCommit send s with
  | (s, .error e) => (s, .error e)
  | (s, .ok ()) =>
    match switch_name_to_serial_number send s switch_name with
    | (s, .error e) => (s, .error e)
    | (s, .ok serial_number) =>
      match switch_name_to_serial_number send s peer_switch_name with
      | (s, .error e) => (s, .error e)
      | (s, .ok peer_serial_number) =>
        let switch := (alLookup s.inventory_by_switch_name (.str switch_name)).getD []
        let peer_switch :=
          (alLookup s.inventory_by_switch_name (.str peer_switch_name)).getD []
        if ¬(pyGetD switch "vpcConfigured" (.bool false) = .bool true) then
          (s, .ok false)
        else if ¬(pyGetD peer_switch "vpcConfigured" (.bool false) = .bool true) then
          (s, .ok false)
        else if serial_number = peer_serial_number then
          (s, .ok false)
        else
          (s, .ok true)

end SIG

/-- The state of a `QueryFilterGeneric` instance
(`endpoints/base/query_filter_generic.py` `__init__`); the source spells
the flag `_commited`. -/
structure QFGState where
  commited : Bool := false
  filter : String := ""
  limit : Int := 0
  max : Int := 0
  offset : Int := 0
  query_string : String := ""
  sort : String := ""
deriving DecidableEq, Repr

/-- Python `q.endswith("&")`. -/
def pyEndsWithAmp (q : String) : Bool := q.data.getLast? == some '&'

/-- Python `q[:-1]`. -/
def pyDropLast (q : String) : String := ⟨q.data.dropLast⟩

namespace QFG

/-- The five `if truthy: self._query_string += "key=value&"` statements
of `QueryFilterGeneric.commit`, as a function of the starting string. -/
def commitAccum (s : QFGState) (q : String) : String :=
  let q := if ¬(s.filter = "") then q ++ "filter=" ++ s.filter ++ "&" else q
  let q := if ¬(s.limit = 0) then q ++ "limit=" ++ toString s.limit ++ "&" else q
  let q := if ¬(s.max = 0) then q ++ "max=" ++ toString s.max ++ "&" else q
  let q := if ¬(s.offset = 0) then q ++ "offset=" ++ toString s.offset ++ "&" else q
  if ¬(s.sort = "") then q ++ "sort=" ++ s.sort ++ "&" else q

/-- `QueryFilterGeneric.commit` (`endpoints/base/query_filter_generic.py`
lines 59-73): append each truthy parameter (with a trailing `&`) to the
existing `_query_string`, then strip one trailing `&`. -/
def commit (s : QFGState) : QFGState :=
  let q := commitAccum s s.query_string
  let q := if pyEndsWithAmp q then pyDropLast q else q
  { s with query_string := q, commited := true }

/-- The `query_string` property: raises until `commit()` has run. -/
def query_string_get (s : QFGState) : Except String String :=
  if ¬s.commited then
    .error ("QueryFilterGeneric.query_string: " ++
      "QueryFilterGeneric.commit() must be called before accessing query_string")
  else
    .ok s.query_string

end QFG

/-- The state of a `FabricDetailGet` instance
(`fabric/fabric_detail_get.py` `__init__`).  The `query_filter` member
is constructed but never consulted by `commit`. -/
structure FDGState where
  committed : Bool := false
  query_filter : QFGState := {}
  rest_send : Option RestSendState := none
deriving DecidableEq, Repr

namespace FDG

/-- `FabricDetailGet._final_verification`: only checks that `rest_send`
is set. -/
def final_verification (s : FDGState) : Except String Unit :=
  if s.rest_send.isNone then
    .error ("FabricDetailGet._final_verification: " ++
      "FabricDetailGet.rest_send must be set before calling FabricDetailGet.commit")
  else
    .ok ()

/-- `FabricDetailGet.commit` (`fabric/fabric_detail_get.py` lines
60-76): verify `rest_send`, send one GET request, translate a raised
`TypeError`/`ValueError` into an annotated `ValueError`, set the
committed flag on success. -/
def commit (send : Sender) (s : FDGState) : FDGState × Except String Unit :=
  match final_verification s with
  | .error e => (s, .error e)
  | .ok () =>
    match s.rest_send with
    | none => (s, .error "unreachable: final_verification checked rest_send")
    | some rs =>
      let rs := { rs with path := EpFabricDetailGet_path, verb := "GET" }
      match restSendCommit send rs with
      | (rs, .error e) =>
          ({ s with rest_send := some rs },
           .error ("FabricDetailGet.commit: Unable to send " ++ rs.verb ++
             " request to the controller. Error details: " ++ e.detail))
      | (rs, .ok ()) =>
          ({ s with rest_send := some rs, committed := true }, .ok ())

/-- `FabricDetailGet.error_if_not_committed`. -/
def error_if_not_committed (method_name : String) (s : FDGState) :
    Except String Unit :=
  if ¬s.committed then
    .error ("FabricDetailGet." ++ method_name ++ ": " ++
      "FabricDetailGet.commit() must be called before accessing " ++ method_name)
  else
    .ok ()

/-- The `FabricDetailGet.data` property: guard on the committed flag,
then `self.rest_send.response_current.get("DATA", {})`.  An unset
`rest_send` would surface as Python's `AttributeError`. -/
def data (s : FDGState) : Except String DataObj :=
  match error_if_not_committed "data" s with
  | .error e => .error e
  | .ok () =>
    match s.rest_send with
    | none => .error "AttributeError: rest_send is None"
    | some rs => .ok (rs.response_current.DATA.getD DataObj.empty)

end FDG

/-- The configuration object as `CredentialsUserSwitchSave.build_payload`
reads it: Python is duck-typed and the method accesses `config.switches`
(a list of items carrying `fabric_name` and `switch_name`) together with
`config.switch_username` and `config.switch_password`.  (The pydantic
model `CredentialsUserSwitchSaveConfigValidator` declares a field named
`config`, not `switches`; the embedding follows the attributes the
source code of `commit` actually dereferences.) -/
structure USSConfigItem where
  fabric_name : String
  switch_name : String
deriving DecidableEq, Repr

structure USSConfig where
  switches : List USSConfigItem
  switch_username : String
  switch_password : String
deriving DecidableEq, Repr

/-- The state of a `CredentialsUserSwitchSave` instance
(`credentials/user_switch_save.py` `__init__`).  `inventory` is the
embedded `SwitchesInventoryGet` helper; `rest_send` is shared with it by
assignment in `populate_fabric_inventory` (aliasing modelled by copying
the transport state back after the helper commits). -/
structure USSState where
  committed : Bool := false
  config : Option USSConfig := none
  fabric_name : String := ""
  fabric_inventory : List (String × Inv) := []
  payload : Payload := []
  result : String := ""
  inventory : SIGState := {}
  rest_send : Option RestSendState := none
deriving DecidableEq, Repr

namespace USS

/-- `CredentialsUserSwitchSave._verify_property` instantiated at the two
properties `_final_verification` checks: `not getattr(self, name, None)`
is true exactly when the attribute is unset (`config` defaults to the
falsy `{}`; a pydantic model or `RestSend` instance is always truthy). -/
def final_verification (s : USSState) : Except String Unit :=
  if s.config.isNone then
    .error ("CredentialsUserSwitchSave._final_verification: " ++
      "CredentialsUserSwitchSave.config must be set before calling " ++
      "CredentialsUserSwitchSave.commit")
  else if s.rest_send.isNone then
    .error ("CredentialsUserSwitchSave._final_verification: " ++
      "CredentialsUserSwitchSave.rest_send must be set before calling " ++
      "CredentialsUserSwitchSave.commit")
  else
    .ok ()

/-- `CredentialsUserSwitchSave.populate_fabric_inventory`
(`credentials/user_switch_save.py` lines 87-103): return immediately
when the fabric is already cached, otherwise run the embedded
`SwitchesInventoryGet.commit` through the shared `rest_send` and cache
its name index, wrapping a raised `ValueError`. -/
def populate_fabric_inventory (send : Sender) (s : USSState)
    (fabric_name : String) : USSState × Except String Unit :=
  if (alLookup s.fabric_inventory fabric_name).isSome then
    (s, .ok ())
  else
    let inv := { s.inventory with fabric_name := fabric_name, rest_send := s.rest_send }
    match SIG.commit send inv with
    | (inv, .error e) =>
        ({ s with inventory := inv, rest_send := inv.rest_send },
         .error ("CredentialsUserSwitchSave.populate_fabric_inventory: " ++
           "Error populating fabric inventory for fabric " ++ fabric_name ++
           ". Error details: " ++ e))
    | (inv, .ok ()) =>
        let cache := alInsert s.fabric_inventory fabric_name inv.inventory_by_switch_name
        ({ s with inventory := inv, rest_send := inv.rest_send, fabric_inventory := cache },
         .ok ())

/-- The `for item in self.config.switches` loop of
`CredentialsUserSwitchSave.build_payload`: populate the fabric cache,
chain-`get` the serial number with falsy defaults, error when it is
falsy, otherwise collect `{"switchId": serial}` and append the per-item
line to `result`. -/
def buildPayloadGo (send : Sender) (username : String) :
    USSState → List Record → List USSConfigItem →
    USSState × List Record × Except String Unit
  | s, serial_numbers, [] => (s, serial_numbers, .ok ())
  | s, serial_numbers, item :: rest =>
    match populate_fabric_inventory send s item.fabric_name with
    | (s, .error e) => (s, serial_numbers, .error e)
    | (s, .ok ()) =>
      let fabInv := (alLookup s.fabric_inventory item.fabric_name).getD []
      let switch := (alLookup fabInv (.str item.switch_name)).getD []
      let serial_number := pyGetD switch "serialNumber" (.str "")
      if serial_number.falsy then
        (s, serial_numbers,
         .error ("switch_name " ++ item.switch_name ++ " not found in fabric " ++
           item.fabric_name))
      else
        let serial_numbers := serial_numbers ++ [[("switchId", serial_number)]]
        let s := { s with result := s.result ++
          ("Fabric " ++ item.fabric_name ++ " switch " ++ item.switch_name ++
           " serial number " ++ serial_number.pyStr ++ " switch_username " ++
           username ++ ".\n") }
        buildPayloadGo send username s serial_numbers rest

/-- `CredentialsUserSwitchSave.build_payload`
(`credentials/user_switch_save.py` lines 105-126).  An unset `config`
would surface as Python's `AttributeError` on `config.switches`. -/
def build_payload (send : Sender) (s : USSState) : USSState × Except String Unit :=
  match s.config with
  | none => (s, .error "AttributeError: config has no attribute switches")
  | some cfg =>
    let s := { s with result :=
      "User switch credentials saved successfully for the following devices:\n" }
    match buildPayloadGo send cfg.switch_username s [] cfg.switches with
    | (s, _, .error e) => (s, .error e)
    | (s, serial_numbers, .ok ()) =>
      if serial_numbers.length = 0 then
        (s, .error "No valid switches found to save credentials")
      else
        let p := alInsert s.payload "switchIds" (.recs serial_numbers)
        let p := alInsert p "switchUsername" (.scalar (.str cfg.switch_username))
        let p := alInsert p "switchPassword" (.scalar (.str cfg.switch_password))
        ({ s with payload := p }, .ok ())

/-- `CredentialsUserSwitchSave.commit` (`credentials/user_switch_save.py`
lines 128-146). -/
def commit (send : Sender) (s : USSState) : USSState × Except String Unit :=
  match final_verification s with
  | .error e => (s, .error e)
  | .ok () =>
    match build_payload send s with
    | (s, .error e) => (s, .error e)
    | (s, .ok ()) =>
      match s.rest_send with
      | none => (s, .error "unreachable: final_verification checked rest_send")
      | some rs =>
        let rs := { rs with path := EpCredentialsUserSwitchSave_path,
                            verb := "POST", payload := some s.payload }
        match restSendCommit send rs with
        | (rs, .error e) =>
            ({ s with rest_send := some rs },
             .error ("CredentialsUserSwitchSave.commit: Error sending " ++ rs.verb ++
               " request to the controller. Error details: " ++ e.detail))
        | (rs, .ok ()) =>
            ({ s with rest_send := some rs, committed := true }, .ok ())

/-- The `CredentialsUserSwitchSave.fabric_inventory` property (getter). -/
def fabric_inventory_get (s : USSState) : Except String (List (String × Inv)) :=
  if ¬s.committed then
    .error ("CredentialsUserSwitchSave.fabric_inventory: " ++
      "CredentialsUserSwitchSave.commit must be called before accessing " ++
      "CredentialsUserSwitchSave.fabric_inventory")
  else
    .ok s.fabric_inventory

/-- The `CredentialsUserSwitchSave.result` property (getter). -/
def result_get (s : USSState) : Except String String :=
  if ¬s.committed then
    .error ("CredentialsUserSwitchSave.result: " ++
      "CredentialsUserSwitchSave.commit must be called before accessing " ++
      "CredentialsUserSwitchSave.result")
  else
    .ok s.result

end USS

/-! ### Helper lemmas about strings and the query-filter commit -/

theorem string_ext {s t : String} (h : s.data = t.data) : s = t := by
  cases s; cases t; simp_all

theorem string_ne_of_length_pos {q c : String} (h : 0 < c.length) : q ++ c ≠ q := by
  intro hc
  have hlen : (q ++ c).length = q.length := by rw [hc]
  rw [String.length_append] at hlen
  omega

/-- Python's `q[:-1]` applied to a string that ends in `&` removes
exactly that character. -/
theorem pyStrip_concat_amp (q : String) :
    (if pyEndsWithAmp (q ++ "&") then pyDropLast (q ++ "&") else q ++ "&") = q := by
  have hdata : (q ++ "&").data = q.data ++ ['&'] := String.data_append q "&"
  have hends : pyEndsWithAmp (q ++ "&") = true := by
    simp [pyEndsWithAmp, hdata, List.getLast?_concat]
  rw [if_pos hends]
  apply string_ext
  show (q ++ "&").data.dropLast = q.data
  rw [hdata]
  exact List.dropLast_concat

/-- The block of `key=value&` segments one `QueryFilterGeneric.commit`
call appends to the existing query string. -/
def qfgBlock (s : QFGState) : String :=
  (if ¬(s.filter = "") then "filter=" ++ s.filter ++ "&" else "") ++
  ((if ¬(s.limit = 0) then "limit=" ++ toString s.limit ++ "&" else "") ++
  ((if ¬(s.max = 0) then "max=" ++ toString s.max ++ "&" else "") ++
  ((if ¬(s.offset = 0) then "offset=" ++ toString s.offset ++ "&" else "") ++
  (if ¬(s.sort = "") then "sort=" ++ s.sort ++ "&" else ""))))

theorem qfg_commitAccum_eq (s : QFGState) (q : String) :
    QFG.commitAccum s q = q ++ qfgBlock s := by
  unfold QFG.commitAccum qfgBlock
  split_ifs <;>
    simp only [String.append_assoc, String.append_empty, String.empty_append]

theorem qfg_commit_query_string (s : QFGState) :
    (QFG.commit s).query_string =
      (if pyEndsWithAmp (s.query_string ++ qfgBlock s) then
        pyDropLast (s.query_string ++ qfgBlock s)
      else s.query_string ++ qfgBlock s) := by
  show (if pyEndsWithAmp (QFG.commitAccum s s.query_string) then
      pyDropLast (QFG.commitAccum s s.query_string)
    else QFG.commitAccum s s.query_string) = _
  rw [qfg_commitAccum_eq]

theorem qfg_commit_params (s : QFGState) :
    (QFG.commit s).filter = s.filter ∧ (QFG.commit s).limit = s.limit ∧
    (QFG.commit s).max = s.max ∧ (QFG.commit s).offset = s.offset ∧
    (QFG.commit s).sort = s.sort := by
  unfold QFG.commit
  exact ⟨rfl, rfl, rfl, rfl, rfl⟩

theorem qfgBlock_commit (s : QFGState) : qfgBlock (QFG.commit s) = qfgBlock s := by
  obtain ⟨h1, h2, h3, h4, h5⟩ := qfg_commit_params s
  unfold qfgBlock
  rw [h1, h2, h3, h4, h5]

/-- When at least one parameter is set, the appended block is a
non-empty string followed by one trailing `&`. -/
theorem qfgBlock_decomp (s : QFGState)
    (h : ¬(s.filter = "") ∨ ¬(s.limit = 0) ∨ ¬(s.max = 0) ∨ ¬(s.offset = 0) ∨
      ¬(s.sort = "")) :
    ∃ c : String, qfgBlock s = c ++ "&" ∧ 0 < c.length := by
  unfold qfgBlock
  by_cases h5 : s.sort = ""
  · by_cases h4 : s.offset = 0
    · by_cases h3 : s.max = 0
      · by_cases h2 : s.limit = 0
        · have h1 : ¬(s.filter = "") := by tauto
          refine ⟨"filter=" ++ s.filter, ?_, ?_⟩
          · simp [h1, h2, h3, h4, h5, String.append_assoc]
          · simp [String.length_append]
            have : ("filter=" : String).length = 7 := rfl
            omega
        · refine ⟨(if ¬(s.filter = "") then "filter=" ++ s.filter ++ "&" else "") ++
            ("limit=" ++ toString s.limit), ?_, ?_⟩
          · simp [h2, h3, h4, h5, String.append_assoc]
          · simp [String.length_append]
            have : ("limit=" : String).length = 6 := rfl
            omega
      · refine ⟨(if ¬(s.filter = "") then "filter=" ++ s.filter ++ "&" else "") ++
          ((if ¬(s.limit = 0) then "limit=" ++ toString s.limit ++ "&" else "") ++
          ("max=" ++ toString s.max)), ?_, ?_⟩
        · simp [h3, h4, h5, String.append_assoc]
        · simp [String.length_append]
          have : ("max=" : String).length = 4 := rfl
          omega
    · refine ⟨(if ¬(s.filter = "") then "filter=" ++ s.filter ++ "&" else "") ++
        ((if ¬(s.limit = 0) then "limit=" ++ toString s.limit ++ "&" else "") ++
        ((if ¬(s.max = 0) then "max=" ++ toString s.max ++ "&" else "") ++
        ("offset=" ++ toString s.offset))), ?_, ?_⟩
      · simp [h4, h5, String.append_assoc]
      · simp [String.length_append]
        have : ("offset=" : String).length = 7 := rfl
        omega
  · refine ⟨(if ¬(s.filter = "") then "filter=" ++ s.filter ++ "&" else "") ++
      ((if ¬(s.limit = 0) then "limit=" ++ toString s.limit ++ "&" else "") ++
      ((if ¬(s.max = 0) then "max=" ++ toString s.max ++ "&" else "") ++
      ((if ¬(s.offset = 0) then "offset=" ++ toString s.offset ++ "&" else "") ++
      ("sort=" ++ s.sort)))), ?_, ?_⟩
    · simp [h5, String.append_assoc]
    · simp [String.length_append]
      have : ("sort=" : String).length = 5 := rfl
      omega

/-- C8: `QueryFilterGeneric.commit` is not idempotent: each call appends
the currently set parameters (filter, limit, max, offset, sort, in that
order, each with a trailing `&` that is stripped once at the end) to the
existing `_query_string` rather than rebuilding it, so with at least one
non-empty/non-zero parameter the query string after two `commit` calls
differs from the query string after one. -/
theorem qfg_commit_not_idempotent (s : QFGState)
    (h : ¬(s.filter = "") ∨ ¬(s.limit = 0) ∨ ¬(s.max = 0) ∨ ¬(s.offset = 0) ∨
      ¬(s.sort = "")) :
    (QFG.commit (QFG.commit s)).query_string ≠ (QFG.commit s).query_string := by
  obtain ⟨c, hc, hcpos⟩ := qfgBlock_decomp s h
  have h1 : (QFG.commit s).query_string = s.query_string ++ c := by
    rw [qfg_commit_query_string, hc, ← String.append_assoc]
    exact pyStrip_concat_amp (s.query_string ++ c)
  have h2 : (QFG.commit (QFG.commit s)).query_string =
      (QFG.commit s).query_string ++ c := by
    rw [qfg_commit_query_string, qfgBlock_commit, hc, ← String.append_assoc]
    exact pyStrip_concat_amp ((QFG.commit s).query_string ++ c)
  rw [h2]
  exact string_ne_of_length_pos hcpos

/-- C8 witness: a filter-only instance, evaluated concretely. -/
theorem qfg_commit_not_idempotent_witness :
    (QFG.commit (QFG.commit { filter := "a" })).query_string ≠
      (QFG.commit { filter := "a" }).query_string :=
  qfg_commit_not_idempotent { filter := "a" } (Or.inl (by decide))

/-! ### The switch-inventory indices built by `SwitchesInventoryGet.commit` -/

theorem getLast?_cons_orElse {α : Type} (a : α) (l : List α) :
    (a :: l).getLast? = (l.getLast?).orElse (fun _ => some a) := by
  cases l with
  | nil => rfl
  | cons b bl =>
      rw [List.getLast?_cons_cons]
      have h : (b :: bl).getLast?.isSome := by
        rw [List.getLast?_isSome]
        simp
      obtain ⟨w, hw⟩ := Option.isSome_iff_exists.mp h
      rw [hw]
      rfl

/-- `lastWith` returns the record occurring latest in list order among
those whose `field` value is `k`. -/
theorem lastWith_eq_filter_getLast (f : String) (k : JVal) (l : List Record) :
    lastWith f k l = (l.filter (fun r => decide (pyGet r f = k))).getLast? := by
  induction l with
  | nil => rfl
  | cons r rest ih =>
      by_cases h : pyGet r f = k
      · rw [lastWith, ih, List.filter_cons, if_pos h, if_pos (decide_eq_true h),
          getLast?_cons_orElse]
      · rw [lastWith, ih, List.filter_cons, if_neg h, if_neg (by simp [h])]
        cases hlg : (rest.filter (fun r => decide (pyGet r f = k))).getLast? <;> rfl

theorem sig_final_verification_ok {s : SIGState}
    (h : SIG.final_verification s = .ok ()) :
    ¬(s.rest_send = none) ∧ ¬(s.fabric_name = "") := by
  unfold SIG.final_verification at h
  split_ifs at h with h1 h2
  · exact ⟨fun hn => h1 (by simp [hn]), h2⟩

/-- Inversion of a successful `SwitchesInventoryGet.commit`: the request
that was sent and the exact post-state, with the three dictionaries
built by one pass each over the response's `DATA.switches` list. -/
theorem sig_commit_ok_elim (send : Sender) (s s' : SIGState)
    (h : SIG.commit send s = (s', .ok ())) :
    ∃ rs resp, s.rest_send = some rs ∧
      send "GET" (SWITCHES ++ "?fabricName=" ++ s.fabric_name) rs.payload = .ok resp ∧
      s' = { s with
        rest_send := some { rs with
          path := SWITCHES ++ "?fabricName=" ++ s.fabric_name,
          verb := "GET", trips := rs.trips + 1, response_current := resp },
        inventory_data := (resp.DATA.getD DataObj.empty).switches.getD [],
        inventory_meta := (resp.DATA.getD DataObj.empty).meta.getD [],
        request_method := resp.REQUEST_METHOD.getD "",
        request_path := resp.REQUEST_PATH.getD "",
        response_message := resp.MESSAGE.getD "",
        return_code := resp.RETURN_CODE.getD 0,
        inventory_by_switch_ipv4_address :=
          buildIndexBy "fabricManagementIp"
            ((resp.DATA.getD DataObj.empty).switches.getD []),
        inventory_by_switch_name :=
          buildIndexBy "hostname" ((resp.DATA.getD DataObj.empty).switches.getD []),
        inventory_by_switch_serial_number :=
          buildIndexBy "serialNumber" ((resp.DATA.getD DataObj.empty).switches.getD []),
        committed := true } := by
  unfold SIG.commit at h
  cases hfv : SIG.final_verification s with
  | error e => rw [hfv] at h; simp at h
  | ok u =>
      cases u
      rw [hfv] at h
      obtain ⟨hsome, hfn⟩ := sig_final_verification_ok hfv
      have hep : epSwitchesInventoryGetCommit s.fabric_name =
          .ok (SWITCHES ++ "?fabricName=" ++ s.fabric_name) := by
        unfold epSwitchesInventoryGetCommit
        rw [if_neg hfn]
      rw [hep] at h
      cases hrs : s.rest_send with
      | none => rw [hrs] at h; simp at h
      | some rs =>
          rw [hrs] at h
          unfold restSendCommit at h
          cases hsend : send "GET" (SWITCHES ++ "?fabricName=" ++ s.fabric_name)
              rs.payload with
          | error e =>
              simp only [hsend] at h
              simp at h
          | ok resp =>
              simp only [hsend] at h
              refine ⟨rs, resp, rfl, hsend, ?_⟩
              simp only [SIG.build_inventory_by_switch_ipv4_address,
                SIG.build_inventory_by_switch_name,
                SIG.build_inventory_by_switch_serial_number] at h
              obtain ⟨h1, -⟩ := Prod.mk.injEq .. ▸ h
              exact h1.symm

/-! ### Concrete fixtures used by the witnesses -/

def rec1 : Record :=
  [("hostname", .str "sw1"), ("fabricManagementIp", .str "10.1.1.1"),
   ("serialNumber", .str "S1"), ("vpcConfigured", .bool true)]

def rec2 : Record :=
  [("hostname", .str "sw2"), ("fabricManagementIp", .str "10.1.1.2"),
   ("serialNumber", .str "S2"), ("vpcConfigured", .bool true)]

/-- A record with no hostname, IP or serial: skipped by all three index
builders. -/
def recNoKeys : Record := [("model", .str "n9k")]

/-- A record that duplicates `sw1`'s hostname later in the list. -/
def recDup : Record := [("hostname", .str "sw1"), ("serialNumber", .str "S9")]

def invResponse : ResponseCurrent :=
  { DATA := some { switches := some [rec1, rec2, recNoKeys],
                   meta := some [("count", .int 2)] },
    REQUEST_METHOD := some "GET", REQUEST_PATH := some "/req",
    MESSAGE := some "OK", RETURN_CODE := some 200 }

def invResponseDup : ResponseCurrent :=
  { DATA := some { switches := some [rec1, rec2, recDup] },
    RETURN_CODE := some 200 }

def sendInv : Sender := fun _ _ _ => .ok invResponse

def sendInvDup : Sender := fun _ _ _ => .ok invResponseDup

def sendFail : Sender := fun _ _ _ => .error (.valueError "Simulated exception for testing")

def sigInit : SIGState := { fabric_name := "f1", rest_send := some {} }

/-- C1: after a successful `SwitchesInventoryGet.commit`, the three
lookup dictionaries are exactly the result of one pass over the
response's `DATA.switches` list: `_inventory_data` is that list, and
each dictionary maps a key to the last record carrying it in its key
field (`hostname`, `fabricManagementIp`, `serialNumber` respectively),
records whose key field is absent (`None`) being skipped, so that no
key is ever `None`. -/
theorem sig_commit_builds_three_indices (send : Sender) (s s' : SIGState)
    (h : SIG.commit send s = (s', .ok ())) :
    ∃ rs, s'.rest_send = some rs ∧
      s'.inventory_data = (rs.response_current.DATA.getD DataObj.empty).switches.getD [] ∧
      (∀ k, alLookup s'.inventory_by_switch_name k =
        if k = .null then none else lastWith "hostname" k s'.inventory_data) ∧
      (∀ k, alLookup s'.inventory_by_switch_ipv4_address k =
        if k = .null then none else lastWith "fabricManagementIp" k s'.inventory_data) ∧
      (∀ k, alLookup s'.inventory_by_switch_serial_number k =
        if k = .null then none else lastWith "serialNumber" k s'.inventory_data) := by
  obtain ⟨rs, resp, hrs, hsend, hs'⟩ := sig_commit_ok_elim send s s' h
  subst hs'
  refine ⟨_, rfl, rfl, ?_, ?_, ?_⟩ <;>
    intro k <;> rw [alLookup_buildIndexBy]

/-- C1 witness: a concrete commit against a three-record inventory
(one record lacking all key fields), with lookups evaluated. -/
theorem sig_commit_builds_three_indices_witness :
    (SIG.commit sendInv sigInit).2 = .ok () ∧
    alLookup ((SIG.commit sendInv sigInit).1).inventory_by_switch_name
      (.str "sw1") = some rec1 ∧
    alLookup ((SIG.commit sendInv sigInit).1).inventory_by_switch_ipv4_address
      (.str "10.1.1.2") = some rec2 ∧
    alLookup ((SIG.commit sendInv sigInit).1).inventory_by_switch_serial_number
      (.str "S3") = none := by
  obtain ⟨rs, hrs, hdata, hname, hip, hserial⟩ :=
    sig_commit_builds_three_indices sendInv sigInit
      (SIG.commit sendInv sigInit).1 (by rfl)
  refine ⟨rfl, ?_, ?_, ?_⟩
  · rw [hname (.str "sw1")]; decide
  · rw [hip (.str "10.1.1.2")]; decide
  · rw [hserial (.str "S3")]; decide

/-- C10: the indices built by `SwitchesInventoryGet.commit` are
last-wins on duplicate keys: each non-`None` key maps to the record
occurring latest in the `DATA.switches` list among those sharing that
key (so earlier records with the same key are not reachable through the
index). -/
theorem sig_commit_indices_last_wins (send : Sender) (s s' : SIGState)
    (h : SIG.commit send s = (s', .ok ())) :
    ∀ k, ¬(k = .null) →
      alLookup s'.inventory_by_switch_name k =
        (s'.inventory_data.filter (fun r => decide (pyGet r "hostname" = k))).getLast? ∧
      alLookup s'.inventory_by_switch_ipv4_address k =
        (s'.inventory_data.filter
          (fun r => decide (pyGet r "fabricManagementIp" = k))).getLast? ∧
      alLookup s'.inventory_by_switch_serial_number k =
        (s'.inventory_data.filter
          (fun r => decide (pyGet r "serialNumber" = k))).getLast? := by
  obtain ⟨rs, resp, hrs, hsend, hs'⟩ := sig_commit_ok_elim send s s' h
  subst hs'
  intro k hk
  refine ⟨?_, ?_, ?_⟩ <;>
    rw [alLookup_buildIndexBy, if_neg hk, lastWith_eq_filter_getLast]

/-- C10 witness: two records share hostname `sw1`; the name index maps
`sw1` to the later one and the earlier record is not reachable. -/
theorem sig_commit_indices_last_wins_witness :
    (SIG.commit sendInvDup sigInit).2 = .ok () ∧
    alLookup ((SIG.commit sendInvDup sigInit).1).inventory_by_switch_name
      (.str "sw1") = some recDup ∧
    ¬(alLookup ((SIG.commit sendInvDup sigInit).1).inventory_by_switch_name
      (.str "sw1") = some rec1) := by
  have h := sig_commit_indices_last_wins sendInvDup sigInit
    (SIG.commit sendInvDup sigInit).1 (by rfl) (.str "sw1") (by decide)
  obtain ⟨hname, -, -⟩ := h
  refine ⟨rfl, ?_, ?_⟩
  · rw [hname]; decide
  · rw [hname]; decide

/-! ### Cross-referenced lookups on a committed inventory -/

/-- A committed inventory fixture used by several witnesses. -/
def sigFix : SIGState :=
  { fabric_name := "f1", committed := true,
    inventory_by_switch_name := [(.str "sw1", rec1), (.str "sw2", rec2)],
    inventory_by_switch_ipv4_address :=
      [(.str "10.1.1.1", rec1), (.str "10.1.1.2", rec2)],
    inventory_by_switch_serial_number := [(.str "S1", rec1), (.str "S2", rec2)] }

theorem sig_autoCommit_committed {send : Sender} {s : SIGState}
    (hc : s.committed = true) : SIG.autoCommit send s = (s, .ok ()) := by
  unfold SIG.autoCommit
  rw [if_pos hc]

/-- C4: on a committed inventory, `switch_name_to_serial_number` leaves
the state unchanged and returns the `serialNumber` field of the record
indexed under the hostname, raising `ValueError` exactly when the name
is not a key of the name index or the indexed record has no
`serialNumber`; and the analogous lookups (name to IPv4, IPv4 to
name/serial, serial to IPv4/name) behave the same way over their
respective indices and fields. -/
theorem sig_cross_lookups_spec (send : Sender) (s : SIGState)
    (hc : s.committed = true) :
    ∀ key : String,
      ((SIG.switch_name_to_serial_number send s key).1 = s ∧
       ((∃ e, (SIG.switch_name_to_serial_number send s key).2 = .error e) ↔
         alLookup s.inventory_by_switch_name (.str key) = none ∨
         ∃ sw, alLookup s.inventory_by_switch_name (.str key) = some sw ∧
           pyGet sw "serialNumber" = .null) ∧
       (∀ sw, alLookup s.inventory_by_switch_name (.str key) = some sw →
         ¬(pyGet sw "serialNumber" = .null) →
         (SIG.switch_name_to_serial_number send s key).2 =
           .ok (pyGet sw "serialNumber"))) ∧
      ((SIG.switch_name_to_ipv4_address send s key).1 = s ∧
       ((∃ e, (SIG.switch_name_to_ipv4_address send s key).2 = .error e) ↔
         alLookup s.inventory_by_switch_name (.str key) = none ∨
         ∃ sw, alLookup s.inventory_by_switch_name (.str key) = some sw ∧
           pyGet sw "fabricManagementIp" = .null) ∧
       (∀ sw, alLookup s.inventory_by_switch_name (.str key) = some sw →
         ¬(pyGet sw "fabricManagementIp" = .null) →
         (SIG.switch_name_to_ipv4_address send s key).2 =
           .ok (pyGet sw "fabricManagementIp"))) ∧
      ((SIG.ipv4_address_to_switch_name send s key).1 = s ∧
       ((∃ e, (SIG.ipv4_address_to_switch_name send s key).2 = .error e) ↔
         alLookup s.inventory_by_switch_ipv4_address (.str key) = none ∨
         ∃ sw, alLookup s.inventory_by_switch_ipv4_address (.str key) = some sw ∧
           pyGet sw "hostname" = .null) ∧
       (∀ sw, alLookup s.inventory_by_switch_ipv4_address (.str key) = some sw →
         ¬(pyGet sw "hostname" = .null) →
         (SIG.ipv4_address_to_switch_name send s key).2 =
           .ok (pyGet sw "hostname"))) ∧
      ((SIG.ipv4_address_to_serial_number send s key).1 = s ∧
       ((∃ e, (SIG.ipv4_address_to_serial_number send s key).2 = .error e) ↔
         alLookup s.inventory_by_switch_ipv4_address (.str key) = none ∨
         ∃ sw, alLookup s.inventory_by_switch_ipv4_address (.str key) = some sw ∧
           pyGet sw "serialNumber" = .null) ∧
       (∀ sw, alLookup s.inventory_by_switch_ipv4_address (.str key) = some sw →
         ¬(pyGet sw "serialNumber" = .null) →
         (SIG.ipv4_address_to_serial_number send s key).2 =
           .ok (pyGet sw "serialNumber"))) ∧
      ((SIG.serial_number_to_ipv4_address send s key).1 = s ∧
       ((∃ e, (SIG.serial_number_to_ipv4_address send s key).2 = .error e) ↔
         alLookup s.inventory_by_switch_serial_number (.str key) = none ∨
         ∃ sw, alLookup s.inventory_by_switch_serial_number (.str key) = some sw ∧
           pyGet sw "fabricManagementIp" = .null) ∧
       (∀ sw, alLookup s.inventory_by_switch_serial_number (.str key) = some sw →
         ¬(pyGet sw "fabricManagementIp" = .null) →
         (SIG.serial_number_to_ipv4_address send s key).2 =
           .ok (pyGet sw "fabricManagementIp"))) ∧
      ((SIG.serial_number_to_switch_name send s key).1 = s ∧
       ((∃ e, (SIG.serial_number_to_switch_name send s key).2 = .error e) ↔
         alLookup s.inventory_by_switch_serial_number (.str key) = none ∨
         ∃ sw, alLookup s.inventory_by_switch_serial_number (.str key) = some sw ∧
           pyGet sw "hostname" = .null) ∧
       (∀ sw, alLookup s.inventory_by_switch_serial_number (.str key) = some sw →
         ¬(pyGet sw "hostname" = .null) →
         (SIG.serial_number_to_switch_name send s key).2 =
           .ok (pyGet sw "hostname"))) := by
  intro key
  have ha := @sig_autoCommit_committed send s hc
  refine ⟨?_, ?_, ?_, ?_, ?_, ?_⟩
  · unfold SIG.switch_name_to_serial_number
    rw [ha]
    dsimp only
    refine ⟨?_, ?_, ?_⟩
    · cases hl : alLookup s.inventory_by_switch_name (JVal.str key) with
      | none => rfl
      | some sw => by_cases hn : pyGet sw "serialNumber" = JVal.null <;> simp [hn]
    · cases hl : alLookup s.inventory_by_switch_name (JVal.str key) with
      | none => simp
      | some sw => by_cases hn : pyGet sw "serialNumber" = JVal.null <;> simp [hn]
    · intro sw hsw hn
      rw [hsw]
      simp [hn]
  · unfold SIG.switch_name_to_ipv4_address
    rw [ha]
    dsimp only
    refine ⟨?_, ?_, ?_⟩
    · cases hl : alLookup s.inventory_by_switch_name (JVal.str key) with
      | none => rfl
      | some sw => by_cases hn : pyGet sw "fabricManagementIp" = JVal.null <;> simp [hn]
    · cases hl : alLookup s.inventory_by_switch_name (JVal.str key) with
      | none => simp
      | some sw => by_cases hn : pyGet sw "fabricManagementIp" = JVal.null <;> simp [hn]
    · intro sw hsw hn
      rw [hsw]
      simp [hn]
  · unfold SIG.ipv4_address_to_switch_name
    rw [ha]
    dsimp only
    refine ⟨?_, ?_, ?_⟩
    · cases hl : alLookup s.inventory_by_switch_ipv4_address (JVal.str key) with
      | none => rfl
      | some sw => by_cases hn : pyGet sw "hostname" = JVal.null <;> simp [hn]
    · cases hl : alLookup s.inventory_by_switch_ipv4_address (JVal.str key) with
      | none => simp
      | some sw => by_cases hn : pyGet sw "hostname" = JVal.null <;> simp [hn]
    · intro sw hsw hn
      rw [hsw]
      simp [hn]
  · unfold SIG.ipv4_address_to_serial_number
    rw [ha]
    dsimp only
    refine ⟨?_, ?_, ?_⟩
    · cases hl : alLookup s.inventory_by_switch_ipv4_address (JVal.str key) with
      | none => rfl
      | some sw => by_cases hn : pyGet sw "serialNumber" = JVal.null <;> simp [hn]
    · cases hl : alLookup s.inventory_by_switch_ipv4_address (JVal.str key) with
      | none => simp
      | some sw => by_cases hn : pyGet sw "serialNumber" = JVal.null <;> simp [hn]
    · intro sw hsw hn
      rw [hsw]
      simp [hn]
  · unfold SIG.serial_number_to_ipv4_address
    rw [ha]
    dsimp only
    refine ⟨?_, ?_, ?_⟩
    · cases hl : alLookup s.inventory_by_switch_serial_number (JVal.str key) with
      | none => rfl
      | some sw => by_cases hn : pyGet sw "fabricManagementIp" = JVal.null <;> simp [hn]
    · cases hl : alLookup s.inventory_by_switch_serial_number (JVal.str key) with
      | none => simp
      | some sw => by_cases hn : pyGet sw "fabricManagementIp" = JVal.null <;> simp [hn]
    · intro sw hsw hn
      rw [hsw]
      simp [hn]
  · unfold SIG.serial_number_to_switch_name
    rw [ha]
    dsimp only
    refine ⟨?_, ?_, ?_⟩
    · cases hl : alLookup s.inventory_by_switch_serial_number (JVal.str key) with
      | none => rfl
      | some sw => by_cases hn : pyGet sw "hostname" = JVal.null <;> simp [hn]
    · cases hl : alLookup s.inventory_by_switch_serial_number (JVal.str key) with
      | none => simp
      | some sw => by_cases hn : pyGet sw "hostname" = JVal.null <;> simp [hn]
    · intro sw hsw hn
      rw [hsw]
      simp [hn]

/-- C4 witness: the lookups evaluated on a concrete committed
inventory, including a raising case. -/
theorem sig_cross_lookups_spec_witness :
    (SIG.switch_name_to_serial_number sendInv sigFix "sw1").2 = .ok (.str "S1") ∧
    (SIG.serial_number_to_ipv4_address sendInv sigFix "S2").2 = .ok (.str "10.1.1.2") ∧
    (∃ e, (SIG.serial_number_to_ipv4_address sendInv sigFix "S9").2 = .error e) := by
  have h1 := sig_cross_lookups_spec sendInv sigFix rfl "sw1"
  have h2 := sig_cross_lookups_spec sendInv sigFix rfl "S2"
  have h3 := sig_cross_lookups_spec sendInv sigFix rfl "S9"
  refine ⟨?_, ?_, ?_⟩
  · exact (h1.1.2.2 rec1 (by decide) (by decide)).trans
      (congrArg Except.ok (by decide))
  · exact (h2.2.2.2.2.1.2.2 rec2 (by decide) (by decide)).trans
      (congrArg Except.ok (by decide))
  · exact (h3.2.2.2.2.1.2.1).mpr (Or.inl (by decide))

/-! ### The vPC-peer heuristic -/

/-- Equation form of `switch_name_to_serial_number` on a committed
inventory. -/
theorem sig_name_to_serial_eq (send : Sender) {s : SIGState}
    (hc : s.committed = true) (n : String) :
    SIG.switch_name_to_serial_number send s n =
      (s, match alLookup s.inventory_by_switch_name (.str n) with
        | none => .error ("Switch name " ++ n ++ " not found in fabric " ++
            s.fabric_name ++ ".")
        | some sw =>
          if pyGet sw "serialNumber" = .null then
            .error ("Switch name " ++ n ++ " has no serial number in fabric " ++
              s.fabric_name ++ ".")
          else .ok (pyGet sw "serialNumber")) := by
  unfold SIG.switch_name_to_serial_number
  rw [sig_autoCommit_committed hc]
  dsimp only
  cases alLookup s.inventory_by_switch_name (JVal.str n) with
  | none => rfl
  | some sw => by_cases hn : pyGet sw "serialNumber" = JVal.null <;> simp [hn]

/-- The full case analysis of `SwitchesInventoryGet.is_vpc_peer` on a
committed inventory. -/
theorem sig_is_vpc_peer_eq (send : Sender) (s : SIGState)
    (hc : s.committed = true) (a b : String) :
    SIG.is_vpc_peer send s a b =
      (s, match alLookup s.inventory_by_switch_name (.str a) with
        | none => .error ("Switch name " ++ a ++ " not found in fabric " ++
            s.fabric_name ++ ".")
        | some swa =>
          if pyGet swa "serialNumber" = .null then
            .error ("Switch name " ++ a ++ " has no serial number in fabric " ++
              s.fabric_name ++ ".")
          else
            match alLookup s.inventory_by_switch_name (.str b) with
            | none => .error ("Switch name " ++ b ++ " not found in fabric " ++
                s.fabric_name ++ ".")
            | some swb =>
              if pyGet swb "serialNumber" = .null then
                .error ("Switch name " ++ b ++ " has no serial number in fabric " ++
                  s.fabric_name ++ ".")
              else if ¬(pyGetD swa "vpcConfigured" (.bool false) = .bool true) then
                .ok false
              else if ¬(pyGetD swb "vpcConfigured" (.bool false) = .bool true) then
                .ok false
              else if pyGet swa "serialNumber" = pyGet swb "serialNumber" then
                .ok false
              else
                .ok true) := by
  have ha := @sig_autoCommit_committed send s hc
  unfold SIG.is_vpc_peer
  rw [ha]
  dsimp only
  rw [sig_name_to_serial_eq send hc a]
  cases hla : alLookup s.inventory_by_switch_name (JVal.str a) with
  | none => rfl
  | some swa =>
      dsimp only
      by_cases hna : pyGet swa "serialNumber" = JVal.null
      · simp [hna]
      · rw [if_neg hna, if_neg hna]
        dsimp only
        rw [sig_name_to_serial_eq send hc b]
        cases hlb : alLookup s.inventory_by_switch_name (JVal.str b) with
        | none => rfl
        | some swb =>
            dsimp only
            by_cases hnb : pyGet swb "serialNumber" = JVal.null
            · simp [hnb]
            · rw [if_neg hnb, if_neg hnb]
              dsimp only
              rw [hla, hlb]
              simp only [Option.getD_some]
              split_ifs <;> rfl

/-- A record that is vPC-configured but carries no serial number. -/
def recVpcNoSerial : Record := [("hostname", .str "sw5"), ("vpcConfigured", .bool true)]

/-- A committed inventory whose name index contains `sw5` without a
serial number. -/
def sigVpcFix : SIGState :=
  { fabric_name := "f1", committed := true,
    inventory_by_switch_name := [(.str "sw1", rec1), (.str "sw5", recVpcNoSerial)] }

/-- C3 counterexample: both names are present in the committed name
index, yet `is_vpc_peer` raises `ValueError` (because `sw5` has no
serial number) instead of returning a boolean, contradicting the claim
that it raises only when a name is not found. -/
theorem sig_is_vpc_peer_claim_counterexample :
    sigVpcFix.committed = true ∧
    (alLookup sigVpcFix.inventory_by_switch_name (.str "sw5")).isSome = true ∧
    (alLookup sigVpcFix.inventory_by_switch_name (.str "sw1")).isSome = true ∧
    (SIG.is_vpc_peer sendInv sigVpcFix "sw5" "sw1").2 =
      .error "Switch name sw5 has no serial number in fabric f1." :=
  ⟨rfl, rfl, rfl, rfl⟩

/-- C3 (amended): on a committed inventory, `is_vpc_peer` raises
`ValueError` exactly when either name is not found in the name index or
a found record has no serial number; otherwise it returns `True` if and
only if both records have `vpcConfigured` equal to `True` and the two
serial numbers differ.  The state is unchanged. -/
theorem sig_is_vpc_peer_spec (send : Sender) (s : SIGState)
    (hc : s.committed = true) (a b : String) :
    ((SIG.is_vpc_peer send s a b).1 = s) ∧
    ((SIG.is_vpc_peer send s a b).2 = .ok true ↔
      ∃ swa swb, alLookup s.inventory_by_switch_name (.str a) = some swa ∧
        alLookup s.inventory_by_switch_name (.str b) = some swb ∧
        ¬(pyGet swa "serialNumber" = .null) ∧ ¬(pyGet swb "serialNumber" = .null) ∧
        pyGetD swa "vpcConfigured" (.bool false) = .bool true ∧
        pyGetD swb "vpcConfigured" (.bool false) = .bool true ∧
        ¬(pyGet swa "serialNumber" = pyGet swb "serialNumber")) ∧
    ((∃ e, (SIG.is_vpc_peer send s a b).2 = .error e) ↔
      alLookup s.inventory_by_switch_name (.str a) = none ∨
      alLookup s.inventory_by_switch_name (.str b) = none ∨
      (∃ sw, alLookup s.inventory_by_switch_name (.str a) = some sw ∧
        pyGet sw "serialNumber" = .null) ∨
      (∃ sw, alLookup s.inventory_by_switch_name (.str b) = some sw ∧
        pyGet sw "serialNumber" = .null)) := by
  rw [sig_is_vpc_peer_eq send s hc a b]
  cases hla : alLookup s.inventory_by_switch_name (JVal.str a) with
  | none => exact ⟨rfl, by simp, by simp⟩
  | some swa =>
      dsimp only
      by_cases hna : pyGet swa "serialNumber" = JVal.null
      · rw [if_pos hna]
        exact ⟨rfl, by simp [hna], by simp [hna]⟩
      · rw [if_neg hna]
        cases hlb : alLookup s.inventory_by_switch_name (JVal.str b) with
        | none => exact ⟨rfl, by simp [hna], by simp [hna]⟩
        | some swb =>
            dsimp only
            by_cases hnb : pyGet swb "serialNumber" = JVal.null
            · rw [if_pos hnb]
              exact ⟨rfl, by simp [hna, hnb], by simp [hna, hnb]⟩
            · rw [if_neg hnb]
              by_cases hva : pyGetD swa "vpcConfigured" (JVal.bool false) = JVal.bool true
              · by_cases hvb : pyGetD swb "vpcConfigured" (JVal.bool false) = JVal.bool true
                · by_cases hse : pyGet swa "serialNumber" = pyGet swb "serialNumber"
                  · exact ⟨rfl, by simp [hva, hvb, hse, hna, hnb],
                      by simp [hva, hvb, hse, hna, hnb]⟩
                  · exact ⟨rfl, by simp [hva, hvb, hse, hna, hnb],
                      by simp [hva, hvb, hse, hna, hnb]⟩
                · exact ⟨rfl, by simp [hva, hvb, hna, hnb], by simp [hva, hvb, hna, hnb]⟩
              · exact ⟨rfl, by simp [hva, hna, hnb], by simp [hva, hna, hnb]⟩

/-- C3 witness: two vPC-configured records with distinct serial numbers
are reported as peers. -/
theorem sig_is_vpc_peer_spec_witness :
    (SIG.is_vpc_peer sendInv sigFix "sw1" "sw2").2 = .ok true :=
  ((sig_is_vpc_peer_spec sendInv sigFix rfl "sw1" "sw2").2.1).mpr
    ⟨rec1, rec2, by decide, by decide, by decide, by decide, by decide, by decide,
      by decide⟩

/-- C9: `is_vpc_peer` is symmetric on a committed inventory: when both
names are present in the name index, both call orders return the same
boolean (and error together); when at least one name is absent, both
call orders raise `ValueError`. -/
theorem sig_is_vpc_peer_symm (send : Sender) (s : SIGState)
    (hc : s.committed = true) (a b : String) :
    ((alLookup s.inventory_by_switch_name (.str a)).isSome = true →
     (alLookup s.inventory_by_switch_name (.str b)).isSome = true →
      ∀ x, (SIG.is_vpc_peer send s a b).2 = .ok x ↔
        (SIG.is_vpc_peer send s b a).2 = .ok x) ∧
    ((alLookup s.inventory_by_switch_name (.str a) = none ∨
      alLookup s.inventory_by_switch_name (.str b) = none) →
      (∃ e, (SIG.is_vpc_peer send s a b).2 = .error e) ∧
      (∃ e, (SIG.is_vpc_peer send s b a).2 = .error e)) := by
  constructor
  · intro hsa hsb x
    obtain ⟨swa, hla⟩ := Option.isSome_iff_exists.mp hsa
    obtain ⟨swb, hlb⟩ := Option.isSome_iff_exists.mp hsb
    rw [sig_is_vpc_peer_eq send s hc a b, sig_is_vpc_peer_eq send s hc b a, hla, hlb]
    dsimp only
    by_cases hna : pyGet swa "serialNumber" = JVal.null <;>
      by_cases hnb : pyGet swb "serialNumber" = JVal.null
    · simp [hna, hnb]
    · simp [hna, hnb]
    · simp [hna, hnb]
    · simp only [if_neg hna, if_neg hnb]
      by_cases hva : pyGetD swa "vpcConfigured" (JVal.bool false) = JVal.bool true
      · by_cases hvb : pyGetD swb "vpcConfigured" (JVal.bool false) = JVal.bool true
        · by_cases hse : pyGet swa "serialNumber" = pyGet swb "serialNumber"
          · simp [hva, hvb, hse]
          · have hse' : ¬(pyGet swb "serialNumber" = pyGet swa "serialNumber") :=
              fun h => hse h.symm
            simp [hva, hvb, hse, hse']
        · simp [hva, hvb]
      · simp [hva]
  · intro h
    have hab := (sig_is_vpc_peer_spec send s hc a b).2.2
    have hba := (sig_is_vpc_peer_spec send s hc b a).2.2
    constructor
    · exact hab.mpr (h.elim Or.inl (fun hb => Or.inr (Or.inl hb)))
    · exact hba.mpr (h.elim (fun ha' => Or.inr (Or.inl ha')) Or.inl)

/-- C9 witness: symmetry on a concrete pair, and errors in both orders
for a missing name. -/
theorem sig_is_vpc_peer_symm_witness :
    ((SIG.is_vpc_peer sendInv sigFix "sw1" "sw2").2 = .ok true ↔
      (SIG.is_vpc_peer sendInv sigFix "sw2" "sw1").2 = .ok true) ∧
    (∃ e, (SIG.is_vpc_peer sendInv sigFix "sw1" "missing").2 = .error e) := by
  have h := sig_is_vpc_peer_symm sendInv sigFix rfl "sw1" "sw2"
  have h2 := sig_is_vpc_peer_symm sendInv sigFix rfl "sw1" "missing"
  exact ⟨h.1 (by decide) (by decide) true, (h2.2 (Or.inr (by decide))).1⟩

/-! ### Sender-error translation in `commit` (C6) -/

def fdgInit : FDGState := { rest_send := some {} }

/-- C6: when the injected sender's `commit` raises `TypeError` or
`ValueError` during `SwitchesInventoryGet.commit` or
`FabricDetailGet.commit`, the business object re-raises a `ValueError`
whose message annotates the class name, the method name (`commit`), the
HTTP verb and the original error details, and the committed flag is
left unchanged (unset). -/
theorem commit_translates_sender_errors (send : Sender) (e : SenderErr)
    (sSig : SIGState) (rsS : RestSendState)
    (hS1 : sSig.rest_send = some rsS) (hS2 : ¬(sSig.fabric_name = ""))
    (hsendS : send "GET" (SWITCHES ++ "?fabricName=" ++ sSig.fabric_name)
      rsS.payload = .error e)
    (sFdg : FDGState) (rsF : RestSendState)
    (hF1 : sFdg.rest_send = some rsF)
    (hsendF : send "GET" EpFabricDetailGet_path rsF.payload = .error e) :
    SIG.commit send sSig =
      ({ sSig with rest_send := some { rsS with
          path := SWITCHES ++ "?fabricName=" ++ sSig.fabric_name,
          verb := "GET", trips := rsS.trips + 1 } },
       .error ("SwitchesInventoryGet.commit: Error sending GET request to the " ++
         "controller. Error details: " ++ e.detail)) ∧
    (SIG.commit send sSig).1.committed = sSig.committed ∧
    FDG.commit send sFdg =
      ({ sFdg with rest_send := some { rsF with
          path := EpFabricDetailGet_path, verb := "GET", trips := rsF.trips + 1 } },
       .error ("FabricDetailGet.commit: Unable to send GET request to the " ++
         "controller. Error details: " ++ e.detail)) ∧
    (FDG.commit send sFdg).1.committed = sFdg.committed := by
  have hfv : SIG.final_verification sSig = .ok () := by
    unfold SIG.final_verification
    rw [if_neg (by rw [hS1]; exact Bool.false_ne_true ∘ id), if_neg hS2]
  have hep : epSwitchesInventoryGetCommit sSig.fabric_name =
      .ok (SWITCHES ++ "?fabricName=" ++ sSig.fabric_name) := by
    unfold epSwitchesInventoryGetCommit
    rw [if_neg hS2]
  have hSIG : SIG.commit send sSig =
      ({ sSig with rest_send := some { rsS with
          path := SWITCHES ++ "?fabricName=" ++ sSig.fabric_name,
          verb := "GET", trips := rsS.trips + 1 } },
       .error ("SwitchesInventoryGet.commit: Error sending GET request to the " ++
         "controller. Error details: " ++ e.detail)) := by
    unfold SIG.commit
    rw [hfv, hep, hS1]
    unfold restSendCommit
    dsimp only
    rw [hsendS]
    rfl
  have hfvF : FDG.final_verification sFdg = .ok () := by
    unfold FDG.final_verification
    rw [if_neg (by rw [hF1]; exact Bool.false_ne_true ∘ id)]
  have hFDG : FDG.commit send sFdg =
      ({ sFdg with rest_send := some { rsF with
          path := EpFabricDetailGet_path, verb := "GET", trips := rsF.trips + 1 } },
       .error ("FabricDetailGet.commit: Unable to send GET request to the " ++
         "controller. Error details: " ++ e.detail)) := by
    unfold FDG.commit
    rw [hfvF, hF1]
    unfold restSendCommit
    dsimp only
    rw [hsendF]
    rfl
  exact ⟨hSIG, by rw [hSIG], hFDG, by rw [hFDG]⟩

/-- C6 witness: a sender that raises a simulated `ValueError`. -/
theorem commit_translates_sender_errors_witness :
    (SIG.commit sendFail sigInit).2 =
      .error ("SwitchesInventoryGet.commit: Error sending GET request to the " ++
        "controller. Error details: Simulated exception for testing") ∧
    (SIG.commit sendFail sigInit).1.committed = false ∧
    (FDG.commit sendFail fdgInit).2 =
      .error ("FabricDetailGet.commit: Unable to send GET request to the " ++
        "controller. Error details: Simulated exception for testing") ∧
    (FDG.commit sendFail fdgInit).1.committed = false := by
  have h := commit_translates_sender_errors sendFail
    (.valueError "Simulated exception for testing") sigInit {} rfl (by decide) rfl
    fdgInit {} rfl rfl
  exact ⟨(congrArg Prod.snd h.1).trans rfl, h.2.1.trans rfl,
    (congrArg Prod.snd h.2.2.1).trans rfl, h.2.2.2.trans rfl⟩

/-! ### Commit-guard flags (C7) -/

/-- Inversion of a successful `FabricDetailGet.commit`. -/
theorem fdg_commit_ok_elim (send : Sender) (s s' : FDGState)
    (h : FDG.commit send s = (s', .ok ())) :
    ∃ rs resp, s.rest_send = some rs ∧
      send "GET" EpFabricDetailGet_path rs.payload = .ok resp ∧
      s' = { s with rest_send := some { rs with
        path := EpFabricDetailGet_path, verb := "GET", trips := rs.trips + 1,
        response_current := resp }, committed := true } := by
  unfold FDG.commit at h
  cases hfv : FDG.final_verification s with
  | error e => rw [hfv] at h; simp at h
  | ok u =>
      cases u
      rw [hfv] at h
      cases hrs : s.rest_send with
      | none => rw [hrs] at h; simp at h
      | some rs =>
          rw [hrs] at h
          unfold restSendCommit at h
          cases hsend : send "GET" EpFabricDetailGet_path rs.payload with
          | error e => simp only [hsend] at h; simp at h
          | ok resp =>
              simp only [hsend] at h
              refine ⟨rs, resp, rfl, hsend, ?_⟩
              obtain ⟨h1, -⟩ := Prod.mk.injEq .. ▸ h
              exact h1.symm

theorem fdg_commit_error_committed (send : Sender) (s s' : FDGState) (msg : String)
    (h : FDG.commit send s = (s', .error msg)) : s'.committed = s.committed := by
  unfold FDG.commit at h
  cases hfv : FDG.final_verification s with
  | error e =>
      rw [hfv] at h
      obtain ⟨h1, -⟩ := Prod.mk.injEq .. ▸ h
      rw [← h1]
  | ok u =>
      cases u
      rw [hfv] at h
      cases hrs : s.rest_send with
      | none =>
          rw [hrs] at h
          obtain ⟨h1, -⟩ := Prod.mk.injEq .. ▸ h
          rw [← h1]
      | some rs =>
          rw [hrs] at h
          unfold restSendCommit at h
          cases hsend : send "GET" EpFabricDetailGet_path rs.payload with
          | error e =>
              simp only [hsend] at h
              obtain ⟨h1, -⟩ := Prod.mk.injEq .. ▸ h
              rw [← h1]
          | ok resp => simp only [hsend] at h; simp at h

theorem uss_populate_committed (send : Sender) (s : USSState) (f : String) :
    (USS.populate_fabric_inventory send s f).1.committed = s.committed := by
  unfold USS.populate_fabric_inventory
  split
  · rfl
  · dsimp only
    split <;> rfl

theorem uss_buildPayloadGo_committed (send : Sender) (u : String)
    (items : List USSConfigItem) :
    ∀ (s : USSState) (acc : List Record),
      (USS.buildPayloadGo send u s acc items).1.committed = s.committed := by
  induction items with
  | nil => intro s acc; rfl
  | cons item rest ih =>
      intro s acc
      unfold USS.buildPayloadGo
      have hp := uss_populate_committed send s item.fabric_name
      cases hpop : USS.populate_fabric_inventory send s item.fabric_name with
      | mk s₂ r =>
          rw [hpop] at hp
          cases r with
          | error e => exact hp
          | ok u' =>
              cases u'
              dsimp only
              split
              · exact hp
              · exact (ih _ _).trans hp

theorem uss_build_payload_committed (send : Sender) (s : USSState) :
    (USS.build_payload send s).1.committed = s.committed := by
  unfold USS.build_payload
  split
  · rfl
  · dsimp only
    rename_i cfg hcfg
    have hg := uss_buildPayloadGo_committed send cfg.switch_username cfg.switches
      { s with result :=
        "User switch credentials saved successfully for the following devices:\n" } []
    split
    · rename_i s₃ fst e heq
      rw [heq] at hg
      exact hg
    · rename_i s₃ serial_numbers u' heq
      rw [heq] at hg
      split
      · exact hg
      · exact hg

theorem uss_commit_ok_committed (send : Sender) (s s' : USSState)
    (h : USS.commit send s = (s', .ok ())) : s'.committed = true := by
  unfold USS.commit at h
  cases hfv : USS.final_verification s with
  | error e => rw [hfv] at h; simp at h
  | ok u =>
      cases u
      rw [hfv] at h
      cases hbp : USS.build_payload send s with
      | mk s₂ r =>
          rw [hbp] at h
          cases r with
          | error e => simp at h
          | ok u' =>
              cases u'
              dsimp only at h
              cases hrs : s₂.rest_send with
              | none => rw [hrs] at h; simp at h
              | some rs =>
                  rw [hrs] at h
                  unfold restSendCommit at h
                  dsimp only at h
                  cases hsend : send "POST" EpCredentialsUserSwitchSave_path
                      (some s₂.payload) with
                  | error e => rw [hsend] at h; simp at h
                  | ok resp =>
                      rw [hsend] at h
                      obtain ⟨h1, -⟩ := Prod.mk.injEq .. ▸ h
                      rw [← h1]

theorem uss_commit_error_committed (send : Sender) (s s' : USSState) (msg : String)
    (h : USS.commit send s = (s', .error msg)) : s'.committed = s.committed := by
  unfold USS.commit at h
  cases hfv : USS.final_verification s with
  | error e =>
      rw [hfv] at h
      obtain ⟨h1, -⟩ := Prod.mk.injEq .. ▸ h
      rw [← h1]
  | ok u =>
      cases u
      rw [hfv] at h
      have hb := uss_build_payload_committed send s
      cases hbp : USS.build_payload send s with
      | mk s₂ r =>
          rw [hbp] at hb
          rw [hbp] at h
          cases r with
          | error e =>
              obtain ⟨h1, -⟩ := Prod.mk.injEq .. ▸ h
              rw [← h1]
              exact hb
          | ok u' =>
              cases u'
              dsimp only at h
              cases hrs : s₂.rest_send with
              | none =>
                  rw [hrs] at h
                  obtain ⟨h1, -⟩ := Prod.mk.injEq .. ▸ h
                  rw [← h1]
                  exact hb
              | some rs =>
                  rw [hrs] at h
                  unfold restSendCommit at h
                  dsimp only at h
                  cases hsend : send "POST" EpCredentialsUserSwitchSave_path
                      (some s₂.payload) with
                  | error e =>
                      rw [hsend] at h
                      obtain ⟨h1, -⟩ := Prod.mk.injEq .. ▸ h
                      rw [← h1]
                      exact hb
                  | ok resp => rw [hsend] at h; simp at h

/-- C7: the response accessors are guarded by the trivial commit flag:
`FabricDetailGet.data`, `CredentialsUserSwitchSave.result` and
`CredentialsUserSwitchSave.fabric_inventory` raise `ValueError` while
the flag is unset, return the corresponding response-derived value
after a successful commit, and the flag is set exactly by a successful
commit (an erroring commit leaves it unchanged). -/
theorem commit_guard_accessors :
    (∀ s : FDGState, s.committed = false →
      FDG.data s = .error ("FabricDetailGet.data: " ++
        "FabricDetailGet.commit() must be called before accessing data")) ∧
    (∀ s : USSState, s.committed = false →
      USS.result_get s = .error ("CredentialsUserSwitchSave.result: " ++
        "CredentialsUserSwitchSave.commit must be called before accessing " ++
        "CredentialsUserSwitchSave.result") ∧
      USS.fabric_inventory_get s =
        .error ("CredentialsUserSwitchSave.fabric_inventory: " ++
          "CredentialsUserSwitchSave.commit must be called before accessing " ++
          "CredentialsUserSwitchSave.fabric_inventory")) ∧
    (∀ (send : Sender) (s s' : FDGState), FDG.commit send s = (s', .ok ()) →
      s'.committed = true ∧ ∃ rs, s'.rest_send = some rs ∧
        FDG.data s' = .ok (rs.response_current.DATA.getD DataObj.empty)) ∧
    (∀ (send : Sender) (s s' : FDGState) (msg : String),
      FDG.commit send s = (s', .error msg) → s'.committed = s.committed) ∧
    (∀ (send : Sender) (s s' : USSState), USS.commit send s = (s', .ok ()) →
      s'.committed = true ∧ USS.result_get s' = .ok s'.result ∧
        USS.fabric_inventory_get s' = .ok s'.fabric_inventory) ∧
    (∀ (send : Sender) (s s' : USSState) (msg : String),
      USS.commit send s = (s', .error msg) → s'.committed = s.committed) := by
  refine ⟨?_, ?_, ?_, ?_, ?_, ?_⟩
  · intro s h
    unfold FDG.data FDG.error_if_not_committed
    rw [h]
    rfl
  · intro s h
    unfold USS.result_get USS.fabric_inventory_get
    rw [h]
    exact ⟨rfl, rfl⟩
  · intro send s s' h
    obtain ⟨rs, resp, hrs, hsend, hs'⟩ := fdg_commit_ok_elim send s s' h
    subst hs'
    exact ⟨rfl, _, rfl, rfl⟩
  · exact fdg_commit_error_committed
  · intro send s s' h
    have hc := uss_commit_ok_committed send s s' h
    refine ⟨hc, ?_, ?_⟩
    · unfold USS.result_get
      rw [hc]
      rfl
    · unfold USS.fabric_inventory_get
      rw [hc]
      rfl
  · exact uss_commit_error_committed

/-- C7 witness: concrete guarded and unguarded accesses. -/
theorem commit_guard_accessors_witness :
    (∃ e, FDG.data fdgInit = .error e) ∧
    (∃ e, USS.result_get {} = .error e) ∧
    (FDG.commit sendInv fdgInit).1.committed = true ∧
    FDG.data (FDG.commit sendInv fdgInit).1 =
      .ok (invResponse.DATA.getD DataObj.empty) := by
  obtain ⟨hA, hB, hC, hD, hE, hF⟩ := commit_guard_accessors
  refine ⟨⟨_, hA fdgInit rfl⟩, ⟨_, (hB {} rfl).1⟩, ?_, ?_⟩
  · exact (hC sendInv fdgInit (FDG.commit sendInv fdgInit).1 (by rfl)).1
  · obtain ⟨-, rs, hrs, hdata⟩ :=
      hC sendInv fdgInit (FDG.commit sendInv fdgInit).1 (by rfl)
    have h0 : (FDG.commit sendInv fdgInit).1.rest_send =
        some ⟨EpFabricDetailGet_path, "GET", none, invResponse, 1⟩ := rfl
    have hrseq : rs = ⟨EpFabricDetailGet_path, "GET", none, invResponse, 1⟩ :=
      Option.some.inj (hrs.symm.trans h0)
    rw [hdata, hrseq]

/-! ### Round-trip accounting (C2) -/

/-- The number of inventory fetches `build_payload` performs: one per
config item whose fabric name is not yet a key of the
`_fabric_inventory` cache, each fetch caching its fabric for the
following items. -/
def newFabricCount (covered : List String) : List USSConfigItem → Nat
  | [] => 0
  | item :: rest =>
      if item.fabric_name ∈ covered then newFabricCount covered rest
      else newFabricCount (item.fabric_name :: covered) rest + 1

theorem newFabricCount_congr (items : List USSConfigItem) :
    ∀ c c' : List String, (∀ x, x ∈ c ↔ x ∈ c') →
      newFabricCount c items = newFabricCount c' items := by
  induction items with
  | nil => intro c c' h; rfl
  | cons item rest ih =>
      intro c c' h
      unfold newFabricCount
      by_cases hm : item.fabric_name ∈ c
      · rw [if_pos hm, if_pos ((h _).mp hm)]
        exact ih c c' h
      · rw [if_neg hm, if_neg (fun hx => hm ((h _).mpr hx))]
        have := ih (item.fabric_name :: c) (item.fabric_name :: c')
          (fun x => by simp only [List.mem_cons]; exact or_congr Iff.rfl (h x))
        rw [this]

theorem alLookup_isSome_iff_mem {κ α : Type} [DecidableEq κ]
    (d : List (κ × α)) (k : κ) :
    (alLookup d k).isSome = true ↔ k ∈ d.map Prod.fst := by
  induction d with
  | nil => simp [alLookup]
  | cons p rest ih =>
      obtain ⟨k₀, v₀⟩ := p
      by_cases h : k = k₀ <;> simp [alLookup, h, ih]

theorem mem_keys_alInsert {κ α : Type} [DecidableEq κ]
    (d : List (κ × α)) (k : κ) (v : α) (x : κ) :
    x ∈ (alInsert d k v).map Prod.fst ↔ x ∈ d.map Prod.fst ∨ x = k := by
  induction d with
  | nil => simp [alInsert]
  | cons p rest ih =>
      obtain ⟨k₀, v₀⟩ := p
      by_cases h : k = k₀
      · subst h
        rw [show alInsert ((k, v₀) :: rest) k v = (k, v) :: rest from by
          rw [alInsert, if_pos rfl]]
        simp only [List.map_cons, List.mem_cons]
        tauto
      · rw [show alInsert ((k₀, v₀) :: rest) k v = (k₀, v₀) :: alInsert rest k v from by
          rw [alInsert, if_neg h]]
        simp only [List.map_cons, List.mem_cons, ih]
        tauto

/-- One pass of the `build_payload` loop: on success the shared
transport has performed exactly one round trip per fabric that was not
already cached when its item was reached. -/
theorem uss_buildPayloadGo_trips (send : Sender) (u : String) :
    ∀ (items : List USSConfigItem) (s : USSState) (acc : List Record)
      (s' : USSState) (acc' : List Record) (rs : RestSendState),
      USS.buildPayloadGo send u s acc items = (s', acc', .ok ()) →
      s.rest_send = some rs →
      ∃ rs', s'.rest_send = some rs' ∧
        rs'.trips = rs.trips +
          newFabricCount (s.fabric_inventory.map Prod.fst) items := by
  intro items
  induction items with
  | nil =>
      intro s acc s' acc' rs h hrs
      unfold USS.buildPayloadGo at h
      obtain ⟨h1, -⟩ := Prod.mk.injEq .. ▸ h
      subst h1
      exact ⟨rs, hrs, rfl⟩
  | cons item rest ih =>
      intro s acc s' acc' rs h hrs
      unfold USS.buildPayloadGo at h
      cases hpop : USS.populate_fabric_inventory send s item.fabric_name with
      | mk s₂ r =>
          rw [hpop] at h
          cases r with
          | error e => simp at h
          | ok u' =>
              cases u'
              dsimp only at h
              by_cases hin : (alLookup s.fabric_inventory item.fabric_name).isSome = true
              · -- the fabric is cached: populate is a no-op
                have hs₂ : s₂ = s := by
                  unfold USS.populate_fabric_inventory at hpop
                  rw [if_pos hin] at hpop
                  obtain ⟨h1, -⟩ := Prod.mk.injEq .. ▸ hpop
                  exact h1.symm
                split at h
                · simp at h
                · obtain ⟨rs', hrs', htrips⟩ := ih _ _ _ _ rs h
                    (by dsimp only; rw [hs₂]; exact hrs)
                  refine ⟨rs', hrs', ?_⟩
                  dsimp only at htrips
                  rw [hs₂] at htrips
                  have hmem := (alLookup_isSome_iff_mem s.fabric_inventory
                    item.fabric_name).mp hin
                  have hstep : newFabricCount (s.fabric_inventory.map Prod.fst)
                      (item :: rest) =
                      newFabricCount (s.fabric_inventory.map Prod.fst) rest := by
                    simp only [newFabricCount]
                    rw [if_pos hmem]
                  rw [hstep]
                  exact htrips
              · -- fresh fabric: populate commits the embedded inventory helper
                unfold USS.populate_fabric_inventory at hpop
                rw [if_neg hin] at hpop
                dsimp only at hpop
                cases hsig : SIG.commit send { s.inventory with fabric_name := item.fabric_name, rest_send := s.rest_send } with
                | mk inv' rr =>
                    rw [hsig] at hpop
                    cases rr with
                    | error e => simp at hpop
                    | ok u'' =>
                        cases u''
                        obtain ⟨h1, -⟩ := Prod.mk.injEq .. ▸ hpop
                        obtain ⟨rs0, resp, hrs0, hsend0, hinv'⟩ :=
                          sig_commit_ok_elim send _ inv' hsig
                        have hrs0' : rs0 = rs := by
                          have h2 : s.rest_send = some rs0 := hrs0
                          rw [hrs] at h2
                          exact (Option.some.inj h2).symm
                        rw [hrs0'] at hinv'
                        have hs₂rs : s₂.rest_send = some
                            { rs with
                              path := SWITCHES ++ "?fabricName=" ++ item.fabric_name,
                              verb := "GET", trips := rs.trips + 1,
                              response_current := resp } := by
                          rw [← h1]
                          dsimp only
                          rw [hinv']
                        have hs₂fab : s₂.fabric_inventory =
                            alInsert s.fabric_inventory item.fabric_name
                              inv'.inventory_by_switch_name := by
                          rw [← h1]
                        split at h
                        · simp at h
                        · obtain ⟨rs', hrs', htrips⟩ := ih _ _ _ _ _ h
                            (by dsimp only; exact hs₂rs)
                          refine ⟨rs', hrs', ?_⟩
                          dsimp only at htrips
                          rw [hs₂fab] at htrips
                          have hcount :
                              newFabricCount
                                ((alInsert s.fabric_inventory item.fabric_name
                                  inv'.inventory_by_switch_name).map Prod.fst) rest =
                              newFabricCount
                                (item.fabric_name :: s.fabric_inventory.map Prod.fst)
                                rest := by
                            apply newFabricCount_congr
                            intro x
                            rw [mem_keys_alInsert, List.mem_cons]
                            tauto
                          rw [hcount] at htrips
                          have hnotmem : ¬item.fabric_name ∈
                              s.fabric_inventory.map Prod.fst :=
                            fun hm => hin ((alLookup_isSome_iff_mem _ _).mpr hm)
                          have hstep : newFabricCount (s.fabric_inventory.map Prod.fst)
                              (item :: rest) =
                              newFabricCount
                                (item.fabric_name :: s.fabric_inventory.map Prod.fst)
                                rest + 1 := by
                            simp only [newFabricCount]
                            rw [if_neg hnotmem]
                          rw [hstep]
                          omega

theorem uss_build_payload_trips (send : Sender) (s s₂ : USSState)
    (cfg : USSConfig) (rs : RestSendState)
    (hcfg : s.config = some cfg) (hrs : s.rest_send = some rs)
    (h : USS.build_payload send s = (s₂, .ok ())) :
    ∃ rs₂, s₂.rest_send = some rs₂ ∧
      rs₂.trips = rs.trips +
        newFabricCount (s.fabric_inventory.map Prod.fst) cfg.switches := by
  unfold USS.build_payload at h
  split at h
  · rename_i hnone
    rw [hnone] at hcfg
    simp at hcfg
  · rename_i cfg' hsome
    rw [hsome] at hcfg
    have hc : cfg = cfg' := (Option.some.inj hcfg).symm
    subst hc
    dsimp only at h
    split at h
    · simp at h
    · rename_i s₄ sns u' heq
      split at h
      · simp at h
      · obtain ⟨h1, -⟩ := Prod.mk.injEq .. ▸ h
        obtain ⟨rs₂, hrs₂, htrips⟩ := uss_buildPayloadGo_trips send cfg.switch_username
          cfg.switches _ [] _ _ rs heq (by dsimp only; exact hrs)
        refine ⟨rs₂, ?_, ?_⟩
        · rw [← h1]
          exact hrs₂
        · rw [htrips]

/-- A successful `CredentialsUserSwitchSave.commit` performs one round
trip per uncached fabric in the config plus one for the credential
save. -/
theorem uss_commit_trips (send : Sender) (s s' : USSState) (rs : RestSendState)
    (cfg : USSConfig) (hrs : s.rest_send = some rs) (hcfg : s.config = some cfg)
    (h : USS.commit send s = (s', .ok ())) :
    ∃ rs', s'.rest_send = some rs' ∧
      rs'.trips = rs.trips +
        newFabricCount (s.fabric_inventory.map Prod.fst) cfg.switches + 1 := by
  unfold USS.commit at h
  cases hfv : USS.final_verification s with
  | error e => rw [hfv] at h; simp at h
  | ok u =>
      cases u
      rw [hfv] at h
      cases hbp : USS.build_payload send s with
      | mk s₂ r =>
          rw [hbp] at h
          cases r with
          | error e => simp at h
          | ok u' =>
              cases u'
              dsimp only at h
              obtain ⟨rs₂, hrs₂, htrips⟩ :=
                uss_build_payload_trips send s s₂ cfg rs hcfg hrs hbp
              rw [hrs₂] at h
              unfold restSendCommit at h
              dsimp only at h
              cases hsend : send "POST" EpCredentialsUserSwitchSave_path
                  (some s₂.payload) with
              | error e => rw [hsend] at h; simp at h
              | ok resp =>
                  rw [hsend] at h
                  obtain ⟨h1, -⟩ := Prod.mk.injEq .. ▸ h
                  refine ⟨⟨EpCredentialsUserSwitchSave_path, "POST", some s₂.payload,
                    resp, rs₂.trips + 1⟩, ?_, ?_⟩
                  · rw [← h1]
                  · dsimp only
                    omega

/-- `FabricDetailGet.commit` with `rest_send` set always performs
exactly one round trip through the injected sender. -/
theorem fdg_commit_one_trip (send : Sender) (s : FDGState) (rs : RestSendState)
    (hrs : s.rest_send = some rs) :
    ∃ rs', (FDG.commit send s).1.rest_send = some rs' ∧
      rs'.trips = rs.trips + 1 := by
  unfold FDG.commit
  have hfv : FDG.final_verification s = .ok () := by
    unfold FDG.final_verification
    rw [if_neg (by rw [hrs]; exact Bool.false_ne_true ∘ id)]
  rw [hfv, hrs]
  unfold restSendCommit
  dsimp only
  cases send "GET" EpFabricDetailGet_path rs.payload with
  | error e => exact ⟨_, rfl, rfl⟩
  | ok resp => exact ⟨_, rfl, rfl⟩

/-! ### C2: round trips per `commit` call -/

def saveResponse : ResponseCurrent := { MESSAGE := some "OK", RETURN_CODE := some 200 }

/-- A transport behaviour that answers inventory GETs with a fixed
switch list and any other request with a generic success. -/
def sendDual : Sender := fun verb _ _ =>
  if verb = "GET" then .ok invResponse else .ok saveResponse

def ussCfg : USSConfig :=
  { switches := [{ fabric_name := "f1", switch_name := "sw1" }],
    switch_username := "admin", switch_password := "pw" }

def ussInit : USSState := { config := some ussCfg, rest_send := some {} }

/-- C2 counterexample: one `CredentialsUserSwitchSave.commit` call with
a one-switch config performs two round trips through the injected
sender (one inventory fetch plus the credential save), not one. -/
theorem uss_commit_two_round_trips_counterexample :
    (USS.commit sendDual ussInit).2 = .ok () ∧
    ∃ rs, (USS.commit sendDual ussInit).1.rest_send = some rs ∧ rs.trips = 2 :=
  ⟨rfl, ⟨_, rfl, rfl⟩⟩

/-- C2 (amended): `FabricDetailGet.commit` performs exactly one round
trip through the injected sender; `CredentialsUserSwitchSave.commit`
performs one round trip per config item whose fabric is not yet in the
`_fabric_inventory` cache (inventory fetches) plus one for the
credential save. -/
theorem commit_round_trip_counts (send : Sender) :
    (∀ (s : FDGState) (rs : RestSendState), s.rest_send = some rs →
      ∃ rs', (FDG.commit send s).1.rest_send = some rs' ∧
        rs'.trips = rs.trips + 1) ∧
    (∀ (s s' : USSState) (rs : RestSendState) (cfg : USSConfig),
      s.rest_send = some rs → s.config = some cfg →
      USS.commit send s = (s', .ok ()) →
      ∃ rs', s'.rest_send = some rs' ∧
        rs'.trips = rs.trips +
          newFabricCount (s.fabric_inventory.map Prod.fst) cfg.switches + 1) :=
  ⟨fun s rs hrs => fdg_commit_one_trip send s rs hrs,
   fun s s' rs cfg hrs hcfg h => uss_commit_trips send s s' rs cfg hrs hcfg h⟩

/-- C2 (amended) witness: the concrete counts for a fabric-detail get
and a one-switch credential save. -/
theorem commit_round_trip_counts_witness :
    (∃ rs', (FDG.commit sendInv fdgInit).1.rest_send = some rs' ∧
      rs'.trips = 1) ∧
    (∃ rs', (USS.commit sendDual ussInit).1.rest_send = some rs' ∧
      rs'.trips = 2) := by
  constructor
  · obtain ⟨rs', h1, h2⟩ := (commit_round_trip_counts sendInv).1 fdgInit {} rfl
    exact ⟨rs', h1, h2.trans (by decide)⟩
  · obtain ⟨rs', h1, h2⟩ := (commit_round_trip_counts sendDual).2 ussInit
      (USS.commit sendDual ussInit).1 {} ussCfg rfl rfl (by rfl)
    exact ⟨rs', h1, h2.trans (by decide)⟩

/-! ### C5: what `commit` validates before sending -/

/-- The pydantic schema `CredentialsUserSwitchSaveConfigItem`
(`validators/credentials/user_switch_save.py`): `fabric_name` between 1
and 64 characters, `switch_name`, `switch_username` and
`switch_password` at least 1 character. -/
def credentialsUserSwitchSaveConfigItemValid
    (fabric_name switch_name switch_username switch_password : String) : Bool :=
  1 ≤ fabric_name.length && fabric_name.length ≤ 64 &&
  1 ≤ switch_name.length && 1 ≤ switch_username.length &&
  1 ≤ switch_password.length

/-- A config whose `switch_username` is empty, which the pydantic
schema rejects. -/
def ussCfgBadUser : USSConfig :=
  { switches := [{ fabric_name := "f1", switch_name := "sw1" }],
    switch_username := "", switch_password := "pw" }

def ussInitBadUser : USSState := { config := some ussCfgBadUser, rest_send := some {} }

/-- C5 counterexample: `CredentialsUserSwitchSave.commit` succeeds and
sends a payload whose `switchUsername` is the empty string, an input
the operation's pydantic schema rejects — so this commit does not
validate its input against the schema before sending. -/
theorem uss_commit_sends_schema_invalid_input :
    credentialsUserSwitchSaveConfigItemValid "f1" "sw1" "" "pw" = false ∧
    (USS.commit sendDual ussInitBadUser).2 = .ok () ∧
    ∃ rs p, (USS.commit sendDual ussInitBadUser).1.rest_send = some rs ∧
      rs.payload = some p ∧
      alLookup p "switchUsername" = some (.scalar (.str "")) :=
  ⟨rfl, rfl, ⟨_, _, rfl, rfl, rfl⟩⟩

theorem sig_commit_one_trip (send : Sender) (s : SIGState) (rs : RestSendState)
    (hrs : s.rest_send = some rs) (hfn : ¬(s.fabric_name = "")) :
    ∃ rs', (SIG.commit send s).1.rest_send = some rs' ∧
      rs'.trips = rs.trips + 1 := by
  have hfv : SIG.final_verification s = .ok () := by
    unfold SIG.final_verification
    rw [if_neg (by rw [hrs]; exact Bool.false_ne_true ∘ id), if_neg hfn]
  have hep : epSwitchesInventoryGetCommit s.fabric_name =
      .ok (SWITCHES ++ "?fabricName=" ++ s.fabric_name) := by
    unfold epSwitchesInventoryGetCommit
    rw [if_neg hfn]
  unfold SIG.commit
  rw [hfv, hep, hrs]
  unfold restSendCommit
  dsimp only
  cases send "GET" (SWITCHES ++ "?fabricName=" ++ s.fabric_name) rs.payload with
  | error e => exact ⟨_, rfl, rfl⟩
  | ok resp => exact ⟨_, rfl, rfl⟩

/-- On success, `build_payload` stores the config's username and
password in the request payload verbatim, with no validation. -/
theorem uss_build_payload_fields (send : Sender) (s s₂ : USSState) (cfg : USSConfig)
    (hcfg : s.config = some cfg) (h : USS.build_payload send s = (s₂, .ok ())) :
    alLookup s₂.payload "switchUsername" = some (.scalar (.str cfg.switch_username)) ∧
    alLookup s₂.payload "switchPassword" = some (.scalar (.str cfg.switch_password)) := by
  unfold USS.build_payload at h
  split at h
  · rename_i hnone
    rw [hnone] at hcfg
    simp at hcfg
  · rename_i cfg' hsome
    rw [hsome] at hcfg
    have hc : cfg = cfg' := (Option.some.inj hcfg).symm
    subst hc
    dsimp only at h
    split at h
    · simp at h
    · rename_i s₄ sns u' heq
      split at h
      · simp at h
      · obtain ⟨h1, -⟩ := Prod.mk.injEq .. ▸ h
        rw [← h1]
        dsimp only
        constructor
        · rw [alLookup_alInsert, if_neg (by decide), alLookup_alInsert, if_pos rfl]
        · rw [alLookup_alInsert, if_pos rfl]

/-- C5 (amended): the business objects' commits gate the send only on
presence checks, not on schema validation: `FabricDetailGet.commit`
sends whenever `rest_send` is set and errors (before any send) only
when it is not; `SwitchesInventoryGet.commit` additionally requires a
non-empty `fabric_name`; `CredentialsUserSwitchSave.commit` requires
only that `config` and `rest_send` are set and copies the config's
username and password into the sent payload verbatim (schema validation
via `CredentialsUserSwitchSaveConfigValidator` happens in the caller,
outside `commit`). -/
theorem commit_presence_checks_only (send : Sender) :
    (∀ (s : FDGState) (rs : RestSendState), s.rest_send = some rs →
      ∃ rs', (FDG.commit send s).1.rest_send = some rs' ∧
        rs'.trips = rs.trips + 1) ∧
    (∀ s : FDGState, s.rest_send = none →
      FDG.commit send s = (s, .error ("FabricDetailGet._final_verification: " ++
        "FabricDetailGet.rest_send must be set before calling FabricDetailGet.commit"))) ∧
    (∀ s : SIGState, s.rest_send = none →
      SIG.commit send s = (s, .error ("SwitchesInventoryGet._final_verification: " ++
        "SwitchesInventoryGet.rest_send must be set before calling " ++
        "SwitchesInventoryGet.commit"))) ∧
    (∀ (s : SIGState) (rs : RestSendState), s.rest_send = some rs →
      s.fabric_name = "" →
      SIG.commit send s = (s, .error ("SwitchesInventoryGet._final_verification: " ++
        "SwitchesInventoryGet.fabric_name must be set before calling " ++
        "SwitchesInventoryGet.commit"))) ∧
    (∀ (s : SIGState) (rs : RestSendState), s.rest_send = some rs →
      ¬(s.fabric_name = "") →
      ∃ rs', (SIG.commit send s).1.rest_send = some rs' ∧
        rs'.trips = rs.trips + 1) ∧
    (∀ s : USSState, s.config = none →
      USS.commit send s = (s, .error ("CredentialsUserSwitchSave._final_verification: " ++
        "CredentialsUserSwitchSave.config must be set before calling " ++
        "CredentialsUserSwitchSave.commit"))) ∧
    (∀ (s s' : USSState) (cfg : USSConfig), s.config = some cfg →
      USS.commit send s = (s', .ok ()) →
      ∃ rs p, s'.rest_send = some rs ∧ rs.payload = some p ∧
        alLookup p "switchUsername" = some (.scalar (.str cfg.switch_username)) ∧
        alLookup p "switchPassword" = some (.scalar (.str cfg.switch_password))) := by
  refine ⟨fdg_commit_one_trip send, ?_, ?_, ?_, sig_commit_one_trip send, ?_, ?_⟩
  · intro s h
    unfold FDG.commit FDG.final_verification
    rw [h]
    rfl
  · intro s h
    unfold SIG.commit SIG.final_verification
    rw [h]
    rfl
  · intro s rs hrs hfn
    unfold SIG.commit SIG.final_verification
    rw [hrs, if_neg (by exact Bool.false_ne_true ∘ id), if_pos hfn]
  · intro s h
    unfold USS.commit USS.final_verification
    rw [h]
    rfl
  · intro s s' cfg hcfg h
    unfold USS.commit at h
    cases hfv : USS.final_verification s with
    | error e => rw [hfv] at h; simp at h
    | ok u =>
        cases u
        rw [hfv] at h
        cases hbp : USS.build_payload send s with
        | mk s₂ r =>
            rw [hbp] at h
            cases r with
            | error e => simp at h
            | ok u' =>
                cases u'
                obtain ⟨hU, hP⟩ := uss_build_payload_fields send s s₂ cfg hcfg hbp
                dsimp only at h
                cases hrs₂ : s₂.rest_send with
                | none => rw [hrs₂] at h; simp at h
                | some rs₂ =>
                    rw [hrs₂] at h
                    unfold restSendCommit at h
                    dsimp only at h
                    cases hsend : send "POST" EpCredentialsUserSwitchSave_path
                        (some s₂.payload) with
                    | error e => rw [hsend] at h; simp at h
                    | ok resp =>
                        rw [hsend] at h
                        obtain ⟨h1, -⟩ := Prod.mk.injEq .. ▸ h
                        refine ⟨⟨EpCredentialsUserSwitchSave_path, "POST",
                          some s₂.payload, resp, rs₂.trips + 1⟩, s₂.payload,
                          ?_, rfl, hU, hP⟩
                        rw [← h1]

/-- C5 (amended) witness: a missing `rest_send` blocks the fabric-detail
commit before any send, and a concrete user-switch save passes its
config credentials through to the payload verbatim. -/
theorem commit_presence_checks_only_witness :
    FDG.commit sendInv {} = ({}, .error ("FabricDetailGet._final_verification: " ++
      "FabricDetailGet.rest_send must be set before calling FabricDetailGet.commit")) ∧
    (∃ rs p, (USS.commit sendDual ussInit).1.rest_send = some rs ∧
      rs.payload = some p ∧
      alLookup p "switchUsername" = some (.scalar (.str "admin")) ∧
      alLookup p "switchPassword" = some (.scalar (.str "pw"))) := by
  refine ⟨(commit_presence_checks_only sendInv).2.1 {} rfl, ?_⟩
  obtain ⟨rs, p, h1, h2, h3, h4⟩ :=
    (commit_presence_checks_only sendDual).2.2.2.2.2.2 ussInit
      (USS.commit sendDual ussInit).1 ussCfg rfl (by rfl)
  exact ⟨rs, p, h1, h2, h3, h4⟩

end NdPython
